import Mathlib

/-!
# sistema-refeicoes: tiered cache, supplier resolution and background-sync worker

Shallow embedding of `src/js/app-modules.js` (AppState, SupplierManager, CacheManager)
and of `src/sw.js` (queue mirrors, drain passes, message handler).

Conventions of the embedding:
* JavaScript values are the JSON-shaped values of `JSValue`; numbers are exact rationals
  (`JSNum`), so IEEE rounding is not modelled, and `-0` is identified with `0`.
* Exceptions are explicit: code inside a `try` block returns `Except JSError _`, and the
  function that owns the `catch` is total.
* Platform built-ins that are not code of the repository (`JSON.parse`, `JSON.stringify`,
  `ToNumber` on strings and objects, the network) are parameters.
* Mutable globals (`AppState`, `localStorage`, `sessionStorage`, the worker's `self`) are
  explicit state records that functions take and return.
* `AppState.cache` is an object with own properties and a prototype (`CacheObject`): a read
  looks at the own properties and then at the prototype chain, an assignment to the key
  `__proto__` goes to the setter of `Object.prototype`, and `delete` removes own properties
  only.
-/

namespace Refeicoes

/-! ## JavaScript values -/

/-- Numbers: `NaN`, the two infinities, and finite values as exact rationals. -/
inductive JSNum where
  | nan
  | inf (negative : Bool)
  | fin (q : Rat)
  deriving DecidableEq

namespace JSNum

/-- Subtraction `a - b` on numbers. -/
def sub : JSNum → JSNum → JSNum
  | fin a, fin b => fin (a - b)
  | nan, _ => nan
  | _, nan => nan
  | inf s, inf t => if s = t then nan else inf s
  | inf s, fin _ => inf s
  | fin _, inf t => inf (!t)

/-- Relational `a < b` on numbers; any comparison with `NaN` is false. -/
def lt : JSNum → JSNum → Bool
  | fin a, fin b => decide (a < b)
  | inf true, fin _ => true
  | inf true, inf false => true
  | fin _, inf false => true
  | _, _ => false

/-- ToBoolean on numbers: `NaN` and zero are falsy. -/
def truthy : JSNum → Bool
  | nan => false
  | inf _ => true
  | fin q => decide (q ≠ 0)

/-- The operator `n || 0`. -/
def orZero (n : JSNum) : JSNum := if n.truthy then n else fin 0

end JSNum

/-- Values that `JSON.parse` and structured cloning can produce, plus `undefined`. -/
inductive JSValue where
  | undefined
  | null
  | bool (b : Bool)
  | num (n : JSNum)
  | str (s : String)
  | arr (items : List JSValue)
  | obj (fields : List (String × JSValue))

/-- Exceptions raised inside the modelled `try` blocks. -/
inductive JSError where
  | syntaxError
  | typeError
  | networkError
  deriving DecidableEq

namespace JSValue

/-- ToBoolean. -/
def truthy : JSValue → Bool
  | undefined => false
  | null => false
  | bool b => b
  | num n => n.truthy
  | str s => s != ""
  | arr _ => true
  | obj _ => true

/-- Property read `v.name` for a data-property name (`value`, `equipe`, `timestamp`, `data`,
`error`, ...): a TypeError on `undefined` and `null`, the field of an object when present,
and `undefined` everywhere else (no prototype in the model has such a member). -/
def getProp (v : JSValue) (name : String) : Except JSError JSValue :=
  match v with
  | undefined => .error .typeError
  | null => .error .typeError
  | obj fields => .ok ((fields.lookup name).getD undefined)
  | _ => .ok undefined

/-- Strict equality `v === s` against a string. -/
def strictEqStr (v : JSValue) (s : String) : Bool :=
  match v with
  | str t => t == s
  | _ => false

/-- The test `v && Array.isArray(v) && v.length > 0`. -/
def isNonEmptyArray : JSValue → Bool
  | arr (_ :: _) => true
  | _ => false

end JSValue

/-! ## Text built-ins: whitespace, `trim`, decimal literals, `parseFloat` -/

/-- White space and line terminators, as stripped by `trim` and skipped by `parseFloat`. -/
def isWhiteSpace (c : Char) : Bool :=
  let n := c.toNat
  n = 9 || n = 10 || n = 11 || n = 12 || n = 13 || n = 32 || n = 160 || n = 5760 ||
  (8192 ≤ n && n ≤ 8202) || n = 8232 || n = 8233 || n = 8239 || n = 8287 || n = 12288 ||
  n = 65279

/-- String `trim()` on a character list. -/
def trimChars (cs : List Char) : List Char :=
  (((cs.dropWhile isWhiteSpace).reverse).dropWhile isWhiteSpace).reverse

/-- String `trim()`. -/
def trim (s : String) : String := String.mk (trimChars s.toList)

/-- Decimal digit test. -/
def isDigit (c : Char) : Bool := 48 ≤ c.toNat && c.toNat ≤ 57

/-- Value of a run of decimal digits. -/
def digitsToNat (ds : List Char) : Nat := ds.foldl (fun n c => 10 * n + (c.toNat - 48)) 0

/-- An unsigned decimal literal read from the front of a text: all its digits as one natural
number, the count of fraction digits, the exponent, and the unread rest. -/
structure Scan where
  mantissa : Nat
  scale : Nat
  exponent : Int
  rest : List Char
  deriving DecidableEq

/-- Optional exponent part `e±ddd`; without digits the `e` is not part of the literal. -/
def scanExponent (cs : List Char) : Int × List Char :=
  match cs with
  | c :: t =>
    if c = 'e' ∨ c = 'E' then
      let signed : Bool × List Char :=
        match t with
        | '+' :: u => (false, u)
        | '-' :: u => (true, u)
        | _ => (false, t)
      let ds := signed.2.takeWhile isDigit
      if ds = [] then (0, cs)
      else ((if signed.1 then -(digitsToNat ds : Int) else (digitsToNat ds : Int)),
        signed.2.dropWhile isDigit)
    else (0, cs)
  | [] => (0, cs)

/-- Longest prefix of the form `digits`, `digits.`, `digits.digits` or `.digits`, followed by
an optional exponent; `none` when there is no digit. -/
def scanUnsigned (cs : List Char) : Option Scan :=
  let intDs := cs.takeWhile isDigit
  let r1 := cs.dropWhile isDigit
  let frac : List Char × List Char :=
    match r1 with
    | '.' :: t => (t.takeWhile isDigit, t.dropWhile isDigit)
    | _ => ([], r1)
  if intDs = [] ∧ frac.1 = [] then none
  else
    let ex := scanExponent frac.2
    some ⟨digitsToNat (intDs ++ frac.1), frac.1.length, ex.1, ex.2⟩

/-- Exact value of a scanned literal. -/
def Scan.value (s : Scan) : Rat := (s.mantissa : Rat) / 10 ^ s.scale * 10 ^ s.exponent

/-- The literal that `parseFloat` reads at the front of a text. -/
inductive FloatLit where
  | notANumber
  | infinity (negative : Bool)
  | decimal (negative : Bool) (s : Scan)
  deriving DecidableEq

/-- Reading step of `parseFloat`: skips leading white space, then takes the longest prefix that
is a signed decimal literal or `Infinity`; what follows the literal is ignored. -/
def scanFloat (text : String) : FloatLit :=
  let cs := text.toList.dropWhile isWhiteSpace
  let signed : Bool × List Char :=
    match cs with
    | '+' :: t => (false, t)
    | '-' :: t => (true, t)
    | _ => (false, cs)
  if "Infinity".toList.isPrefixOf signed.2 then .infinity signed.1
  else
    match scanUnsigned signed.2 with
    | none => .notANumber
    | some s => .decimal signed.1 s

/-- Number denoted by a literal. -/
def FloatLit.value : FloatLit → JSNum
  | .notANumber => .nan
  | .infinity negative => .inf negative
  | .decimal negative s => .fin (if negative then -s.value else s.value)

/-- Global `parseFloat(text)`: `NaN` when the text does not start with a numeric literal. -/
def parseFloat (text : String) : JSNum := (scanFloat text).value

/-- Built-ins of the platform used by the cache. `JSONparse` returns `none` where
`JSON.parse` throws a SyntaxError; the empty text is never valid JSON. `ToNumberOther`
is ToNumber on strings, arrays and objects. -/
structure Platform where
  JSONparse : String → Option JSValue
  JSONstringify : JSValue → String
  ToNumberOther : JSValue → JSNum
  JSONparse_empty : JSONparse "" = none

/-- ToNumber, as applied by the binary `-` operator. -/
def Platform.ToNumber (P : Platform) : JSValue → JSNum
  | .undefined => .nan
  | .null => .fin 0
  | .bool b => if b then .fin 1 else .fin 0
  | .num n => n
  | v => P.ToNumberOther v

/-! ## Web Storage -/

/-- A Storage object (`localStorage`, `sessionStorage`): its entries in key order. -/
abbrev Storage := List (String × String)

namespace Storage

/-- Storage `getItem(k)`: `none` is `null`. -/
def getItem (s : Storage) (k : String) : Option String := s.lookup k

/-- Storage `setItem(k, v)`: replaces the value of an existing key, else appends. -/
def setItem (s : Storage) (k v : String) : Storage :=
  if s.any (fun p => p.1 == k) then s.map (fun p => if p.1 == k then (k, v) else p)
  else s ++ [(k, v)]

/-- Storage `removeItem(k)`. -/
def removeItem (s : Storage) (k : String) : Storage := s.filter (fun p => p.1 != k)

/-- Enumeration `Object.keys(storage)`. -/
def keys (s : Storage) : List String := s.map Prod.fst

end Storage

/-- String `startsWith`. -/
def startsWith (s p : String) : Bool := p.toList.isPrefixOf s.toList

/-! ## AppState and CacheManager (`src/js/app-modules.js`) -/

/-- The prototype of the object `AppState.cache`: `Object.prototype`, which an object literal
starts with, or what an assignment to the key `__proto__` installed through the setter of
`Object.prototype`: `null`, an array or an object. -/
inductive Prototype where
  | objectPrototype
  | null
  | array (items : List JSValue)
  | object (fields : List (String × JSValue))

/-- The object `AppState.cache`: its own properties (`none`: no own property of that name) and
its prototype. -/
structure CacheObject where
  own : String → Option JSValue
  proto : Prototype

namespace CacheObject

/-- The element of an array at the property name `key`, when `key` is the decimal text of an
index below the length. -/
def element (items : List JSValue) (key : String) : Option JSValue :=
  (items.enum.find? (fun p => toString p.1 == key)).map Prod.snd

/-- What a property read finds on the prototype chain, past the own properties. An array gives
its elements and `length`, an object gives its fields, and the getter `__proto__` of
`Object.prototype` gives the prototype itself. The other members of `Object.prototype` and
`Array.prototype` are functions, and the prototype that the getter gives for
`objectPrototype` is `Object.prototype`; these are not JSON values, `Array.isArray` is false
for each of them, and they read as `undefined` here, as does a name that is not found. -/
def inherited (proto : Prototype) (key : String) : JSValue :=
  match proto with
  | .objectPrototype => .undefined
  | .null => .undefined
  | .array items =>
    match element items key with
    | some v => v
    | none =>
      if key = "length" then .num (.fin items.length)
      else if key = "__proto__" then .arr items
      else .undefined
  | .object fields =>
    match fields.lookup key with
    | some v => v
    | none => if key = "__proto__" then .obj fields else .undefined

/-- Property read `AppState.cache[key]`: the own property, else what the prototype chain gives. -/
def read (c : CacheObject) (key : String) : JSValue :=
  match c.own key with
  | some v => v
  | none => inherited c.proto key

/-- Whether an assignment to `key` reaches the setter `__proto__` of `Object.prototype`: the key
is `__proto__`, the object has no own property of that name, its prototype chain ends in
`Object.prototype`, and no object on the chain has a field of that name. -/
def reachesProtoSetter (c : CacheObject) (key : String) : Bool :=
  if key = "__proto__" then
    match c.own key, c.proto with
    | some _, _ => false
    | none, .objectPrototype => true
    | none, .null => false
    | none, .array _ => true
    | none, .object fields => (fields.lookup key).isNone
  else false

/-- Assignment `AppState.cache[key] = value`. It writes an own property, except where it reaches
the setter `__proto__`: the setter makes an array or object the prototype, makes `null` the
prototype, and ignores every other value. -/
def assign (c : CacheObject) (key : String) (value : JSValue) : CacheObject :=
  if c.reachesProtoSetter key then
    match value with
    | .arr items => { c with proto := .array items }
    | .obj fields => { c with proto := .object fields }
    | .null => { c with proto := .null }
    | _ => c
  else { c with own := Function.update c.own key (some value) }

/-- Operator `delete AppState.cache[key]`: removes the own property of that name, if any. -/
def delete (c : CacheObject) (key : String) : CacheObject :=
  { c with own := Function.update c.own key none }

end CacheObject

/-- A cache object is read as `AppState.cache[key]`. -/
instance : CoeFun CacheObject (fun _ => String → JSValue) := ⟨CacheObject.read⟩

/-- The page state the cache touches: `AppState.user.equipe`, `AppState.cache`, `localStorage`
and `sessionStorage`. -/
structure Page where
  equipe : String
  cache : CacheObject
  localStorage : Storage
  sessionStorage : Storage

/-- Initial `AppState.cache`, also the object literal that `clear` assigns: four empty arrays. -/
def initialCache : CacheObject :=
  { own := fun k =>
      if k = "fornecedores" ∨ k = "colaboradores" ∨ k = "organograma" ∨ k = "pagcorp"
      then some (.arr []) else none
    proto := .objectPrototype }

/-- Whether each `setItem` call of one `set` completes (`false`: it throws, e.g. on quota). -/
structure WriteOutcome where
  localOk : Bool
  sessionOk : Bool

namespace CacheManager

/-- Constant `CacheManager.VERSION`. -/
def VERSION : String := "1.0.0"

/-- Constant `CacheManager.PREFIX`. -/
def PREFIX : String := "refeicoes_cache_"

/-- The object `cacheData` built by `set`. -/
def cacheData (value : JSValue) (now : Int) (equipe : String) : JSValue :=
  .obj [("value", value), ("timestamp", .num (.fin now)), ("equipe", .str equipe),
    ("version", .str VERSION)]

/-- Method `CacheManager.set(key, value)` at time `now`: memory first, then localStorage, then the
sessionStorage backup; a throwing `setItem` ends the function through the `catch`, keeping
what was written before. -/
def set (P : Platform) (w : WriteOutcome) (now : Int) (st : Page) (key : String)
    (value : JSValue) : Page :=
  let st1 : Page := { st with cache := st.cache.assign key value }
  let text := P.JSONstringify (cacheData value now st.equipe)
  if w.localOk then
    let st2 : Page := { st1 with localStorage := st1.localStorage.setItem (PREFIX ++ key) text }
    if w.sessionOk then
      { st2 with
        sessionStorage := st2.sessionStorage.setItem (PREFIX ++ key ++ "_backup") text }
    else st2
  else st1

/-- Step 3 of `get`, the sessionStorage backup, and the final `return null`. -/
def getSession (P : Platform) (st : Page) (key : String) : Except JSError (JSValue × Page) :=
  match st.sessionStorage.getItem (PREFIX ++ key ++ "_backup") with
  | none => .ok (.null, st)
  | some sessionCached =>
    if sessionCached = "" then .ok (.null, st)
    else
      match P.JSONparse sessionCached with
      | none => .error .syntaxError
      | some data =>
        match data.getProp "value" with
        | .error e => .error e
        | .ok v => .ok (v, { st with cache := st.cache.assign key v })

/-- Step 2 of `get`, the localStorage tier with its `equipe` check, falling through to step 3. -/
def getLocal (P : Platform) (st : Page) (key : String) : Except JSError (JSValue × Page) :=
  match st.localStorage.getItem (PREFIX ++ key) with
  | none => getSession P st key
  | some cached =>
    if cached = "" then getSession P st key
    else
      match P.JSONparse cached with
      | none => .error .syntaxError
      | some data =>
        match data.getProp "equipe" with
        | .error e => .error e
        | .ok e =>
          if e.strictEqStr st.equipe then
            match data.getProp "value" with
            | .error err => .error err
            | .ok v => .ok (v, { st with cache := st.cache.assign key v })
          else getSession P st key

/-- The `try` block of `get`: memory tier first, then the storage tiers. -/
def getTry (P : Platform) (st : Page) (key : String) : Except JSError (JSValue × Page) :=
  if (st.cache key).isNonEmptyArray then .ok (st.cache key, st)
  else getLocal P st key

/-- Method `CacheManager.get(key)`: the returned value and the page state afterwards; an exception
in the `try` block is caught and `null` is returned. -/
def get (P : Platform) (st : Page) (key : String) : JSValue × Page :=
  match getTry P st key with
  | .ok r => r
  | .error _ => (.null, st)

/-- Removal loop `Object.keys(storage).forEach(k => if (k.startsWith(PREFIX)) removeItem(k))`. -/
def removeAllWithPrefix (s : Storage) : Storage :=
  s.keys.foldl (fun acc k => if startsWith k PREFIX then acc.removeItem k else acc) s

/-- Method `CacheManager.clear(key = null)`: `none` is the omitted argument. The branch taken is
decided by the truthiness of `key`, so the empty string behaves like an omitted key. The
first branch applies `delete` to the memory object and `removeItem` to the two storages; the
second assigns a new object literal and removes every storage key that starts with `PREFIX`. -/
def clear (st : Page) (key : Option String) : Page :=
  match key with
  | some k =>
    if k ≠ "" then
      { st with
        cache := st.cache.delete k
        localStorage := st.localStorage.removeItem (PREFIX ++ k)
        sessionStorage := st.sessionStorage.removeItem (PREFIX ++ k ++ "_backup") }
    else
      { st with
        cache := initialCache
        localStorage := removeAllWithPrefix st.localStorage
        sessionStorage := removeAllWithPrefix st.sessionStorage }
  | none =>
    { st with
      cache := initialCache
      localStorage := removeAllWithPrefix st.localStorage
      sessionStorage := removeAllWithPrefix st.sessionStorage }

/-- Default of the `maxAge` parameter: `24 * 60 * 60 * 1000`. -/
def defaultMaxAge : JSNum := .fin (24 * 60 * 60 * 1000)

/-- The `try` block of `isValid`. -/
def isValidTry (P : Platform) (now : Int) (st : Page) (key : String) (maxAge : JSNum) :
    Except JSError Bool :=
  match st.localStorage.getItem (PREFIX ++ key) with
  | none => .ok false
  | some cached =>
    if cached = "" then .ok false
    else
      match P.JSONparse cached with
      | none => .error .syntaxError
      | some data =>
        match data.getProp "timestamp" with
        | .error e => .error e
        | .ok t =>
          let age := JSNum.sub (.fin now) (P.ToNumber t)
          .ok (age.lt maxAge)

/-- Method `CacheManager.isValid(key, maxAge)` at time `now`; `maxAge = none` is the omitted argument. -/
def isValid (P : Platform) (now : Int) (st : Page) (key : String) (maxAge : Option JSNum) :
    Bool :=
  match isValidTry P now st key (maxAge.getD defaultMaxAge) with
  | .ok b => b
  | .error _ => false

end CacheManager

/-! ## SupplierManager (`src/js/app-modules.js`) -/

/-- An `option` element: its `value` and its label `text`. -/
structure OptionElement where
  value : String
  text : String

/-- A `select` element: its options and `selectedIndex` (`none` is -1, nothing selected). -/
structure SelectElement where
  options : List OptionElement
  selectedIndex : Option Nat

/-- The element `select.options[select.selectedIndex]`; `none` is `undefined`. -/
def SelectElement.selectedOption (s : SelectElement) : Option OptionElement :=
  match s.selectedIndex with
  | some i => s.options.get? i
  | none => none

/-- The property `select.value`: the value of the selected option, else the empty string. -/
def SelectElement.value (s : SelectElement) : String :=
  match s.selectedOption with
  | some o => o.value
  | none => ""

/-- An `input` element. -/
structure InputElement where
  value : String

/-- The part of `document` the manager reads; `none` is `null`. -/
structure Document where
  querySelector : String → Option SelectElement
  getElementById : String → Option InputElement

/-- The field `VALOR` of a supplier record: missing or `null`, a number, or a text. -/
inductive Valor where
  | absent
  | num (n : JSNum)
  | text (s : String)

/-- ToBoolean of a `VALOR`. -/
def Valor.truthy : Valor → Bool
  | .absent => false
  | .num n => n.truthy
  | .text s => s != ""

/-- The call `parseFloat(VALOR)`: a number reads back as itself through its decimal text. -/
def Valor.parseFloat : Valor → JSNum
  | .absent => .nan
  | .num n => n
  | .text s => Refeicoes.parseFloat s

/-- A record of `AppState.cache.fornecedores`; `none` is a missing or `null` field. -/
structure SupplierRecord where
  FORNECEDOR : Option String
  FECHAMENTO : Option String
  VALOR : Valor

/-- The object returned by `getInfo`. -/
structure SupplierInfo where
  isCustom : Bool
  value : String
  name : Option String
  inCache : Bool
  cached : Option SupplierRecord

namespace SupplierManager

/-- The selector text of the meal's `select`. -/
def selectorFor (mealType : String) : String := "select[data-meal=\"" ++ mealType ++ "\"]"

/-- The operator `text?.trim() || null`. -/
def trimOrNull (text : String) : Option String :=
  if trim text = "" then none else some (trim text)

/-- Method `getName(mealType)`: the typed text for a custom selection, else the label text of the
selected option; `none` is `null`. -/
def getName (doc : Document) (mealType : String) : Option String :=
  match doc.querySelector (selectorFor mealType) with
  | none => none
  | some select =>
    if select.value = "__custom__" then
      match doc.getElementById ("supplier-input-" ++ mealType) with
      | none => none
      | some input => trimOrNull input.value
    else
      match select.selectedOption with
      | none => none
      | some option => trimOrNull option.text

/-- The predicate `f => f.FORNECEDOR && f.FORNECEDOR.trim() === name.trim()`. -/
def matchesName (name : String) (f : SupplierRecord) : Bool :=
  match f.FORNECEDOR with
  | none => false
  | some n => n != "" && trim n == trim name

/-- Method `isInCache(name)`. -/
def isInCache (fornecedores : List SupplierRecord) (name : Option String) : Bool :=
  match name with
  | none => false
  | some n => if n = "" then false else fornecedores.any (matchesName n)

/-- Method `getFromCache(name)`: the first matching record; `none` is `null` or `undefined`. -/
def getFromCache (fornecedores : List SupplierRecord) (name : Option String) :
    Option SupplierRecord :=
  match name with
  | none => none
  | some n => if n = "" then none else fornecedores.find? (matchesName n)

/-- Method `getInfo(mealType)`; `none` is `null` (no `select` for the meal). -/
def getInfo (doc : Document) (fornecedores : List SupplierRecord) (mealType : String) :
    Option SupplierInfo :=
  match doc.querySelector (selectorFor mealType) with
  | none => none
  | some select =>
    let isCustom := decide (select.value = "__custom__")
    let name := getName doc mealType
    some
      { isCustom := isCustom
        value := select.value
        name := name
        inCache := if isCustom then false else isInCache fornecedores name
        cached := if isCustom then none else getFromCache fornecedores name }

/-- Method `getFechamento(mealType)`. -/
def getFechamento (doc : Document) (fornecedores : List SupplierRecord) (mealType : String) :
    String :=
  match getInfo doc fornecedores mealType with
  | none => ""
  | some info =>
    if info.isCustom then ""
    else
      match info.cached with
      | none => ""
      | some cached =>
        match cached.FECHAMENTO with
        | some fechamento => if fechamento ≠ "" then fechamento else ""
        | none => ""

/-- Method `getPrice(mealType)`. -/
def getPrice (doc : Document) (fornecedores : List SupplierRecord) (mealType : String) :
    JSNum :=
  let typed : Option String :=
    match doc.getElementById ("price-" ++ mealType) with
    | some priceInput =>
      if priceInput.value ≠ "" ∧ trim priceInput.value ≠ "" then some priceInput.value else none
    | none => none
  match typed with
  | some text => (parseFloat text).orZero
  | none =>
    match getInfo doc fornecedores mealType with
    | some info =>
      match info.cached with
      | some cached => if cached.VALOR.truthy then cached.VALOR.parseFloat.orZero else .fin 0
      | none => .fin 0
    | none => .fin 0

end SupplierManager

/-! ## Background-sync worker (`src/sw.js`) -/

/-- The worker's `self.location`. -/
structure Location where
  hostname : String
  origin : String

/-- Function `getServerBaseUrl()`. -/
def getServerBaseUrl (location : Location) : String :=
  if location.hostname = "localhost" ∨ location.hostname = "127.0.0.1" then
    "http://localhost:8082"
  else location.origin

/-- What one `fetch` followed by `response.json()` gives: the request rejects, or a response
arrives with an HTTP status and a body that parses (`some`) or does not (`none`). -/
inductive FetchOutcome where
  | networkError
  | response (status : Nat) (json : Option JSValue)

/-- The surroundings of a drain pass: the worker's location, the window clients returned by
`clients.matchAll()`, and the network, as a function of the position of the attempt in the
pass, the URL and the value sent as JSON body. -/
structure Env where
  location : Location
  clients : List Nat
  fetch : Nat → String → JSValue → FetchOutcome

/-- Worker globals: the two queue mirrors (`none` is `undefined`, never set) and the login
payload. -/
structure Worker where
  databaseQueueData : Option (List JSValue)
  temperaturaQueueData : Option (List JSValue)
  loginDataCache : JSValue

/-- Messages the worker posts to a window client. -/
inductive ClientMessage where
  | CLEAR_DATABASE_QUEUE
  | CLEAR_TEMPERATURA_QUEUE
  deriving DecidableEq

/-- The arguments of a `showNotification` call. -/
structure Notification where
  title : String
  body : String
  icon : String
  badge : String
  tag : String
  deriving DecidableEq

/-- What a pass does to the outside: `postMessage` calls (client, message) and
`showNotification` calls, in order. -/
structure Effects where
  posted : List (Nat × ClientMessage)
  notifications : List Notification

/-- The counters `successCount` and `errorCount` of a pass. -/
structure Counts where
  successCount : Nat
  errorCount : Nat
  deriving DecidableEq

/-- Function `getDatabaseQueue()`: `self.databaseQueueData || []`. -/
def getDatabaseQueue (w : Worker) : List JSValue := w.databaseQueueData.getD []

/-- Function `getTemperaturaQueue()`: `self.temperaturaQueueData || []`. -/
def getTemperaturaQueue (w : Worker) : List JSValue := w.temperaturaQueueData.getD []

/-- Function `clearDatabaseQueue()`: posts the clear instruction to every client and empties the
mirror. -/
def clearDatabaseQueue (env : Env) (w : Worker) : Worker × List (Nat × ClientMessage) :=
  ({ w with databaseQueueData := some [] },
    env.clients.map (fun c => (c, ClientMessage.CLEAR_DATABASE_QUEUE)))

/-- Function `clearTemperaturaQueue()`. -/
def clearTemperaturaQueue (env : Env) (w : Worker) : Worker × List (Nat × ClientMessage) :=
  ({ w with temperaturaQueueData := some [] },
    env.clients.map (fun c => (c, ClientMessage.CLEAR_TEMPERATURA_QUEUE)))

/-- The inner `try` block of `processDatabaseQueueBackground` for the item at position `i`:
`.ok true` reaches `successCount++`, `.ok false` is the `result.error` branch, `.error _` is
a throw caught by the inner `catch`. The success branch reads `item.data.tipo_refeicao` for
its log line before counting. -/
def attemptPedido (env : Env) (i : Nat) (item : JSValue) : Except JSError Bool :=
  let baseUrl := getServerBaseUrl env.location
  match item.getProp "data" with
  | .error e => .error e
  | .ok data =>
    match env.fetch i (baseUrl ++ "/api/salvar-pedido") data with
    | .networkError => .error .networkError
    | .response _ none => .error .syntaxError
    | .response _ (some result) =>
      match result.getProp "error" with
      | .error e => .error e
      | .ok err =>
        if err.truthy then .ok false
        else
          match data.getProp "tipo_refeicao" with
          | .error e => .error e
          | .ok _ => .ok true

/-- The inner `try` block of `processTemperaturaQueueBackground` for the item at position `i`;
the success branch reads `item.pedido_id` for its log line before counting. -/
def attemptAfericao (env : Env) (i : Nat) (item : JSValue) : Except JSError Bool :=
  let baseUrl := getServerBaseUrl env.location
  match env.fetch i (baseUrl ++ "/api/afericao-temperatura") item with
  | .networkError => .error .networkError
  | .response _ none => .error .syntaxError
  | .response _ (some result) =>
    match result.getProp "error" with
    | .error e => .error e
    | .ok err =>
      if err.truthy then .ok false
      else
        match item.getProp "pedido_id" with
        | .error e => .error e
        | .ok _ => .ok true

/-- One iteration of the `for` loop: the item is counted in `successCount` when the attempt
reaches `successCount++`, and in `errorCount` otherwise. -/
def countAttempt (r : Except JSError Bool) (c : Counts) : Counts :=
  match r with
  | .ok true => { c with successCount := c.successCount + 1 }
  | .ok false => { c with errorCount := c.errorCount + 1 }
  | .error _ => { c with errorCount := c.errorCount + 1 }

/-- The `for` loop over the snapshot, from position `i` on. -/
def drainLoop (attempt : Nat → JSValue → Except JSError Bool) :
    List JSValue → Nat → Counts → Counts
  | [], _, c => c
  | item :: rest, i, c => drainLoop attempt rest (i + 1) (countAttempt (attempt i item) c)

/-- The notification of a fully successful order pass. -/
def pedidosEnviados (successCount : Nat) : Notification :=
  { title := "✅ Pedidos Enviados"
    body := toString successCount ++ " pedido(s) foram enviados automaticamente!"
    icon := "/icon-192x192.png"
    badge := "/badge-72x72.png"
    tag := "pedidos-enviados" }

/-- The notification of a fully successful temperature pass. -/
def afericoesEnviadas (successCount : Nat) : Notification :=
  { title := "🌡️ Aferições Enviadas"
    body := toString successCount ++
      " aferição(ões) de temperatura foram enviadas automaticamente!"
    icon := "/icon-192x192.png"
    badge := "/badge-72x72.png"
    tag := "temperaturas-enviadas" }

/-- Function `processDatabaseQueueBackground()`, run without other events in between: the worker
state afterwards and the effects of the pass. -/
def processDatabaseQueueBackground (env : Env) (w : Worker) : Worker × Effects :=
  let databaseQueue := getDatabaseQueue w
  if databaseQueue.length = 0 then (w, ⟨[], []⟩)
  else
    let c := drainLoop (attemptPedido env) databaseQueue 0 ⟨0, 0⟩
    if c.errorCount = 0 then
      let cleared := clearDatabaseQueue env w
      (cleared.1, ⟨cleared.2, if c.successCount > 0 then [pedidosEnviados c.successCount] else []⟩)
    else (w, ⟨[], []⟩)

/-- Function `processTemperaturaQueueBackground()`, run without other events in between. -/
def processTemperaturaQueueBackground (env : Env) (w : Worker) : Worker × Effects :=
  let temperaturaQueue := getTemperaturaQueue w
  if temperaturaQueue.length = 0 then (w, ⟨[], []⟩)
  else
    let c := drainLoop (attemptAfericao env) temperaturaQueue 0 ⟨0, 0⟩
    if c.errorCount = 0 then
      let cleared := clearTemperaturaQueue env w
      (cleared.1,
        ⟨cleared.2, if c.successCount > 0 then [afericoesEnviadas c.successCount] else []⟩)
    else (w, ⟨[], []⟩)

/-! ## Worker events: message handler, sync events and passes in flight (`src/sw.js`)

A pass is an `async` function: a message can be handled while it waits for the network.
`Pass` holds the local variables of a suspended pass, `Pass.step` runs it up to the next item,
and `ServiceWorker.step` lets the platform choose what happens next. -/

/-- The two queue kinds: orders (`databaseQueueData`) and temperature readings
(`temperaturaQueueData`). -/
inductive QueueKind where
  | database
  | temperatura
  deriving DecidableEq

/-- A `message` event: the fields `type`, `queue` and `data` of `event.data`, and
`event.ports`. -/
structure MessageEvent where
  type : String
  queue : Option (List JSValue)
  data : JSValue
  ports : List Nat

/-- Messages the worker posts to a reply port. -/
inductive PortMessage where
  | LOGIN_DATA (data : JSValue)

/-- The local variables of a pass that is suspended: the array it read when it started, the
loop variable `i` and the two counters. -/
structure Pass where
  kind : QueueKind
  queue : List JSValue
  position : Nat
  counts : Counts

/-- The call `processDatabaseQueueBackground()` or `processTemperaturaQueueBackground()` up to its
first `await`: the queue is read from the mirror at that moment. -/
def Pass.start (kind : QueueKind) (w : Worker) : Pass :=
  { kind := kind
    queue :=
      match kind with
      | .database => getDatabaseQueue w
      | .temperatura => getTemperaturaQueue w
    position := 0
    counts := ⟨0, 0⟩ }

/-- What the worker does to the outside: `postMessage` calls to clients, `showNotification`
calls, `postMessage` calls to reply ports, and the items whose attempt was run. -/
structure Output where
  posted : List (Nat × ClientMessage)
  notifications : List Notification
  replies : List (Nat × PortMessage)
  attempted : List (QueueKind × JSValue)

/-- No output. -/
def Output.none : Output := ⟨[], [], [], []⟩

/-- Outputs in sequence. -/
def Output.append (a b : Output) : Output :=
  ⟨a.posted ++ b.posted, a.notifications ++ b.notifications, a.replies ++ b.replies,
    a.attempted ++ b.attempted⟩

/-- What the `message` listener leaves behind: the worker globals, the passes it started and
the reply it posted. -/
structure HandlerResult where
  worker : Worker
  started : List Pass
  reply : Option (Nat × PortMessage)

/-- The `message` listener. A type without a branch does nothing; `GET_LOGIN` without a reply
port throws on `event.ports[0].postMessage`. -/
def onMessage (w : Worker) (event : MessageEvent) : Except JSError HandlerResult :=
  if event.type = "UPDATE_DATABASE_QUEUE" then
    .ok ⟨{ w with databaseQueueData := event.queue }, [], none⟩
  else if event.type = "UPDATE_TEMPERATURA_QUEUE" then
    .ok ⟨{ w with temperaturaQueueData := event.queue }, [], none⟩
  else if event.type = "CLEAR_TEMPERATURA_QUEUE" then
    .ok ⟨{ w with temperaturaQueueData := some [] }, [], none⟩
  else if event.type = "FORCE_BACKGROUND_SYNC" then
    .ok ⟨w, [Pass.start .database w, Pass.start .temperatura w], none⟩
  else if event.type = "KEEP_ALIVE" then
    .ok ⟨w, [], none⟩
  else if event.type = "SAVE_LOGIN" then
    .ok ⟨{ w with loginDataCache := event.data }, [], none⟩
  else if event.type = "CLEAR_LOGIN" then
    .ok ⟨{ w with loginDataCache := .null }, [], none⟩
  else if event.type = "GET_LOGIN" then
    match event.ports with
    | port :: _ => .ok ⟨w, [], some (port, .LOGIN_DATA w.loginDataCache)⟩
    | [] => .error .typeError
  else .ok ⟨w, [], none⟩

/-- The two `sync` listeners: the passes they start for a tag. -/
def onSync (w : Worker) (tag : String) : List Pass :=
  (if tag = "database-sync" then [Pass.start .database w]
   else if tag = "temperatura-sync" then [Pass.start .temperatura w]
   else []) ++
  (if tag = "database-queue-sync" then [Pass.start .database w] else [])

/-- The `periodicsync` listener. -/
def onPeriodicSync (w : Worker) (tag : String) : List Pass :=
  if tag = "database-queue-periodic" then [Pass.start .database w] else []

/-- The inner `try` block of a pass for the item at its current position. -/
def Pass.attempt (env : Env) (p : Pass) (item : JSValue) : Except JSError Bool :=
  match p.kind with
  | .database => attemptPedido env p.position item
  | .temperatura => attemptAfericao env p.position item

/-- A suspended pass after its next run: the pass (`none` when the function has returned), the
worker globals and the output of the run. -/
structure StepResult where
  pass : Option Pass
  worker : Worker
  output : Output

/-- One run of a suspended pass. An empty queue returns at once; while `i < queue.length` the
item at `i` is attempted and counted; after the last item the queue is cleared and the
notification shown when `errorCount` is 0. -/
def Pass.step (env : Env) (p : Pass) (w : Worker) : StepResult :=
  if p.queue.length = 0 then ⟨none, w, Output.none⟩
  else
    match p.queue.get? p.position with
    | some item =>
      ⟨some { p with
          position := p.position + 1
          counts := countAttempt (p.attempt env item) p.counts },
        w, ⟨[], [], [], [(p.kind, item)]⟩⟩
    | none =>
      if p.counts.errorCount = 0 then
        match p.kind with
        | .database =>
          ⟨none, (clearDatabaseQueue env w).1,
            ⟨(clearDatabaseQueue env w).2,
              if p.counts.successCount > 0 then [pedidosEnviados p.counts.successCount] else [],
              [], []⟩⟩
        | .temperatura =>
          ⟨none, (clearTemperaturaQueue env w).1,
            ⟨(clearTemperaturaQueue env w).2,
              if p.counts.successCount > 0 then [afericoesEnviadas p.counts.successCount]
              else [],
              [], []⟩⟩
      else ⟨none, w, Output.none⟩

/-- The worker as a whole: its globals and the passes in flight. -/
structure ServiceWorker where
  worker : Worker
  inFlight : List Pass

/-- The worker when its script has just been evaluated. -/
def ServiceWorker.initial : ServiceWorker :=
  { worker :=
      { databaseQueueData := none, temperaturaQueueData := none, loginDataCache := .null }
    inFlight := [] }

/-- What the platform can make happen next: deliver a message, fire a `sync` or `periodicsync`
event, or resume the pass at index `k` of the passes in flight. -/
inductive Event where
  | message (event : MessageEvent)
  | sync (tag : String)
  | periodicsync (tag : String)
  | advance (k : Nat)

/-- One event. A listener that throws leaves the worker as it was. -/
def ServiceWorker.step (env : Env) (s : ServiceWorker) : Event → ServiceWorker × Output
  | .message event =>
    match onMessage s.worker event with
    | .ok r => (⟨r.worker, s.inFlight ++ r.started⟩, ⟨[], [], r.reply.toList, []⟩)
    | .error _ => (s, Output.none)
  | .sync tag => (⟨s.worker, s.inFlight ++ onSync s.worker tag⟩, Output.none)
  | .periodicsync tag => (⟨s.worker, s.inFlight ++ onPeriodicSync s.worker tag⟩, Output.none)
  | .advance k =>
    match s.inFlight.get? k with
    | none => (s, Output.none)
    | some p =>
      let r := p.step env s.worker
      (⟨r.worker,
          match r.pass with
          | some p2 => s.inFlight.set k p2
          | none => s.inFlight.eraseIdx k⟩,
        r.output)

/-- A sequence of events, with the outputs in order. -/
def ServiceWorker.run (env : Env) : ServiceWorker → List Event → ServiceWorker × Output
  | s, [] => (s, Output.none)
  | s, ev :: rest =>
    ((ServiceWorker.run env (ServiceWorker.step env s ev).1 rest).1,
      (ServiceWorker.step env s ev).2.append
        (ServiceWorker.run env (ServiceWorker.step env s ev).1 rest).2)

/-! ## A reference platform

An executable instance of `Platform`, used to run the definitions on concrete texts. It
reads and writes JSON with exact rational numbers; `\u` escapes of surrogate code units
and the exponent notation of very large or small numbers on output are outside it. -/

namespace RefJSON

/-- JSON white space. -/
def isJsonSpace (c : Char) : Bool := c.toNat = 32 || c.toNat = 9 || c.toNat = 10 || c.toNat = 13

/-- Skips JSON white space. -/
def skipWs (cs : List Char) : List Char := cs.dropWhile isJsonSpace

/-- Value of a hexadecimal digit. -/
def hexVal (c : Char) : Option Nat :=
  let n := c.toNat
  if 48 ≤ n ∧ n ≤ 57 then some (n - 48)
  else if 97 ≤ n ∧ n ≤ 102 then some (n - 87)
  else if 65 ≤ n ∧ n ≤ 70 then some (n - 55)
  else none

/-- Characters of a string literal after the opening quote, up to the closing quote. -/
def parseString : List Char → Option (List Char × List Char)
  | [] => none
  | '"' :: r => some ([], r)
  | '\\' :: 'u' :: a :: b :: c :: d :: r =>
    match hexVal a, hexVal b, hexVal c, hexVal d, parseString r with
    | some x, some y, some z, some w, some (cs, r1) =>
      some (Char.ofNat (((x * 16 + y) * 16 + z) * 16 + w) :: cs, r1)
    | _, _, _, _, _ => none
  | '\\' :: e :: r =>
    let decoded : Option Char :=
      if e = '"' then some '"' else if e = '\\' then some '\\' else if e = '/' then some '/'
      else if e = 'b' then some (Char.ofNat 8) else if e = 'f' then some (Char.ofNat 12)
      else if e = 'n' then some (Char.ofNat 10) else if e = 'r' then some (Char.ofNat 13)
      else if e = 't' then some (Char.ofNat 9) else none
    match decoded, parseString r with
    | some ch, some (cs, r1) => some (ch :: cs, r1)
    | _, _ => none
  | ch :: r =>
    if ch.toNat < 32 ∨ ch = '\\' then none
    else
      match parseString r with
      | some (cs, r1) => some (ch :: cs, r1)
      | none => none

/-- A JSON number: optional minus, integer part without leading zero, optional fraction with
at least one digit, optional exponent. -/
def parseNumber (cs : List Char) : Option (JSValue × List Char) :=
  let signed : Bool × List Char :=
    match cs with
    | '-' :: t => (true, t)
    | _ => (false, cs)
  let intDs := signed.2.takeWhile isDigit
  let r1 := signed.2.dropWhile isDigit
  if intDs = [] ∨ (1 < intDs.length ∧ intDs.head? = some '0') then none
  else
    let dotWithoutDigit : Bool :=
      match r1 with
      | '.' :: t => (t.takeWhile isDigit).isEmpty
      | _ => false
    if dotWithoutDigit then none
    else
      match scanUnsigned signed.2 with
      | none => none
      | some s => some (.num (.fin (if signed.1 then -s.value else s.value)), s.rest)

/-- Sets a member of an object under construction; a repeated name keeps the last value. -/
def setField (fields : List (String × JSValue)) (k : String) (v : JSValue) :
    List (String × JSValue) :=
  if fields.any (fun p => p.1 == k) then fields.map (fun p => if p.1 == k then (k, v) else p)
  else fields ++ [(k, v)]

mutual
/-- One JSON value with surrounding white space; the first argument bounds the recursion. -/
def parseValue : Nat → List Char → Option (JSValue × List Char)
  | 0, _ => none
  | fuel + 1, cs =>
    match skipWs cs with
    | 'n' :: 'u' :: 'l' :: 'l' :: r => some (.null, skipWs r)
    | 't' :: 'r' :: 'u' :: 'e' :: r => some (.bool true, skipWs r)
    | 'f' :: 'a' :: 'l' :: 's' :: 'e' :: r => some (.bool false, skipWs r)
    | '"' :: r =>
      match parseString r with
      | some (s, r1) => some (.str (String.mk s), skipWs r1)
      | none => none
    | '[' :: r =>
      match skipWs r with
      | ']' :: r1 => some (.arr [], skipWs r1)
      | _ =>
        match parseElements fuel r with
        | some (vs, r1) => some (.arr vs, skipWs r1)
        | none => none
    | '{' :: r =>
      match skipWs r with
      | '}' :: r1 => some (.obj [], skipWs r1)
      | _ =>
        match parseMembers fuel [] r with
        | some (fs, r1) => some (.obj fs, skipWs r1)
        | none => none
    | other =>
      match parseNumber other with
      | some (v, r1) => some (v, skipWs r1)
      | none => none
/-- Elements of a non-empty array, up to and including the closing bracket. -/
def parseElements : Nat → List Char → Option (List JSValue × List Char)
  | 0, _ => none
  | fuel + 1, cs =>
    match parseValue fuel cs with
    | none => none
    | some (v, r) =>
      match r with
      | ',' :: r1 =>
        match parseElements fuel r1 with
        | some (vs, r2) => some (v :: vs, r2)
        | none => none
      | ']' :: r1 => some ([v], r1)
      | _ => none
/-- Members of a non-empty object, up to and including the closing brace. -/
def parseMembers : Nat → List (String × JSValue) → List Char →
    Option (List (String × JSValue) × List Char)
  | 0, _, _ => none
  | fuel + 1, acc, cs =>
    match skipWs cs with
    | '"' :: r =>
      match parseString r with
      | none => none
      | some (k, r1) =>
        match skipWs r1 with
        | ':' :: r2 =>
          match parseValue fuel r2 with
          | none => none
          | some (v, r3) =>
            match r3 with
            | ',' :: r4 => parseMembers fuel (setField acc (String.mk k) v) r4
            | '}' :: r4 => some (setField acc (String.mk k) v, r4)
            | _ => none
        | _ => none
    | _ => none
end

/-- Function `JSON.parse(text)`: `none` is a SyntaxError. -/
def parse (text : String) : Option JSValue :=
  match parseValue (2 * text.length + 2) text.toList with
  | some (v, []) => some v
  | _ => none

/-- Four hexadecimal digits of a code unit below 65536. -/
def hex4 (n : Nat) : List Char :=
  let digit (d : Nat) : Char := if d < 10 then Char.ofNat (48 + d) else Char.ofNat (87 + d)
  [digit (n / 4096 % 16), digit (n / 256 % 16), digit (n / 16 % 16), digit (n % 16)]

/-- Escaped characters of a string literal. -/
def escape : List Char → List Char
  | [] => []
  | c :: cs =>
    (if c = '"' then ['\\', '"']
     else if c = '\\' then ['\\', '\\']
     else if c.toNat < 32 then '\\' :: 'u' :: hex4 c.toNat
     else [c]) ++ escape cs

/-- Decimal text of a finite number; `null` when the value has no finite decimal expansion. -/
def printRat (q : Rat) : List Char :=
  let sign : List Char := if q < 0 then ['-'] else []
  if q.den = 1 then sign ++ (Nat.repr q.num.natAbs).toList
  else
    match (List.range (q.den + 1)).find? (fun k => 10 ^ k % q.den = 0) with
    | none => "null".toList
    | some k =>
      let m := q.num.natAbs * (10 ^ k / q.den)
      let frac := (Nat.repr (m % 10 ^ k)).toList
      sign ++ (Nat.repr (m / 10 ^ k)).toList ++ '.' ::
        (List.replicate (k - frac.length) '0' ++ frac)

mutual
/-- Text of a value in element position; `undefined`, `NaN` and the infinities print as `null`. -/
def printValue : JSValue → List Char
  | .undefined => "null".toList
  | .null => "null".toList
  | .bool b => if b then "true".toList else "false".toList
  | .num (.fin q) => printRat q
  | .num _ => "null".toList
  | .str s => '"' :: escape s.toList ++ ['"']
  | .arr items => '[' :: printElements items ++ [']']
  | .obj fields => '{' :: printMembers true fields ++ ['}']
/-- Comma-separated elements. -/
def printElements : List JSValue → List Char
  | [] => []
  | [v] => printValue v
  | v :: vs => printValue v ++ ',' :: printElements vs
/-- Comma-separated members; a member whose value is `undefined` is left out. -/
def printMembers : Bool → List (String × JSValue) → List Char
  | _, [] => []
  | first, (_, .undefined) :: fs => printMembers first fs
  | first, (k, v) :: fs =>
    (if first then [] else [',']) ++ '"' :: escape k.toList ++ '"' :: ':' :: printValue v ++
      printMembers false fs
end

/-- Function `JSON.stringify(value)` for a value that is not `undefined`. -/
def stringify (v : JSValue) : String := String.mk (printValue v)

end RefJSON

/-- The reference platform. Its ToNumber on strings reads a decimal literal or `Infinity` that
spans the trimmed text (the empty text is 0); hexadecimal, octal and binary literals and the
string form of arrays are outside it and read as `NaN`. -/
def refPlatform : Platform where
  JSONparse := RefJSON.parse
  JSONstringify := RefJSON.stringify
  ToNumberOther := fun v =>
    match v with
    | .str s =>
      if trim s = "" then .fin 0
      else
        match scanFloat (trim s) with
        | .decimal negative sc => if sc.rest = [] then (FloatLit.decimal negative sc).value else .nan
        | .infinity negative =>
          if trim s = "Infinity" ∨ trim s = "+Infinity" ∨ trim s = "-Infinity"
          then .inf negative else .nan
        | .notANumber => .nan
    | _ => .nan
  JSONparse_empty := by rfl

/-! ## Sample inputs -/

/-- A page of team `equipe` with nothing cached yet. -/
def freshPage (equipe : String) : Page :=
  { equipe := equipe, cache := initialCache, localStorage := [], sessionStorage := [] }

/-- The supplier list written in the examples. -/
def sampleSuppliers : JSValue := .arr [.obj [("FORNECEDOR", .str "X")]]

/-- A page whose localStorage holds one entry for `fornecedores`, stamped at time 1000. -/
def stampedPage : Page :=
  { equipe := "A"
    cache := initialCache
    localStorage := [("refeicoes_cache_fornecedores",
      refPlatform.JSONstringify (CacheManager.cacheData sampleSuppliers 1000 "A"))]
    sessionStorage := [] }

/-- A page of team `A` whose memory tier is in its initial state (an empty array under
`fornecedores`) and whose localStorage holds the supplier list for team `A`. -/
def reloadedPage : Page :=
  { equipe := "A"
    cache := initialCache
    localStorage := [("refeicoes_cache_fornecedores",
      refPlatform.JSONstringify (CacheManager.cacheData sampleSuppliers 1000 "A"))]
    sessionStorage := [] }

/-- A page whose localStorage entry for `fornecedores` is not JSON while the sessionStorage
backup holds the supplier list. -/
def brokenLocalPage : Page :=
  { equipe := "A"
    cache := initialCache
    localStorage := [("refeicoes_cache_fornecedores", "not json")]
    sessionStorage := [("refeicoes_cache_fornecedores_backup",
      refPlatform.JSONstringify (CacheManager.cacheData sampleSuppliers 1000 "A"))] }

/-- A page whose sessionStorage backup for `fornecedores` is the JSON text `5`. -/
def numberBackupPage : Page :=
  { equipe := "A"
    cache := initialCache
    localStorage := []
    sessionStorage := [("refeicoes_cache_fornecedores_backup", "5")] }

/-- A page with entries for two keys in each storage tier and in memory. -/
def twoKeyPage : Page :=
  { equipe := "A"
    cache := initialCache.assign "pagcorp" (.arr [.str "p"])
    localStorage := [("refeicoes_cache_pagcorp", "[1]"), ("theme", "dark")]
    sessionStorage := [("refeicoes_cache_pagcorp_backup", "[1]")] }

/-- The page of team `A` after `set("__proto__", ["p"])` at time 1000 with both storage writes
succeeding. -/
def protoKeyPage : Page :=
  CacheManager.set refPlatform ⟨true, true⟩ 1000 (freshPage "A") "__proto__" (.arr [.str "p"])

/-! ## Conditions on the storage tiers, as the claims word them -/

/-- The localStorage tier has a hit for `key`: its entry parses to `data`, whose recorded
`equipe` is the current team. -/
def LocalHit (P : Platform) (st : Page) (key : String) (data : JSValue) : Prop :=
  ∃ text e, st.localStorage.getItem (CacheManager.PREFIX ++ key) = some text ∧
    P.JSONparse text = some data ∧ data.getProp "equipe" = .ok e ∧
    e.strictEqStr st.equipe = true

/-- The localStorage tier is passed over for `key`: no entry, an empty entry, or an entry that
parses to a value other than `null` whose recorded `equipe` is not the current team. -/
def LocalMiss (P : Platform) (st : Page) (key : String) : Prop :=
  st.localStorage.getItem (CacheManager.PREFIX ++ key) = none ∨
  st.localStorage.getItem (CacheManager.PREFIX ++ key) = some "" ∨
  ∃ text data e, st.localStorage.getItem (CacheManager.PREFIX ++ key) = some text ∧
    P.JSONparse text = some data ∧ data.getProp "equipe" = .ok e ∧
    e.strictEqStr st.equipe = false

/-- A non-empty text that is not valid JSON or that parses to `null`. -/
def Unreadable (P : Platform) (text : String) : Prop :=
  text ≠ "" ∧ (P.JSONparse text = none ∨ P.JSONparse text = some .null)

/-- A boolean, number or string: a parsed value that is neither an object nor `null`. -/
def JSValue.isScalar : JSValue → Bool
  | .bool _ => true
  | .num _ => true
  | .str _ => true
  | _ => false

/-! ## Accounting of a drain pass, as the claims word it -/

/-- Whether an attempt is a success: it neither throws nor meets a truthy `error` field. -/
def delivered (r : Except JSError Bool) : Bool :=
  match r with
  | .ok true => true
  | _ => false

/-- Number of items of a snapshot, taken from position `i` on, whose attempt fails. -/
def failedFrom (attempt : Nat → JSValue → Except JSError Bool) (q : List JSValue) (i : Nat) :
    Nat :=
  ((q.enumFrom i).filter (fun p => !delivered (attempt p.1 p.2))).length

/-- Number of items of a snapshot, taken from position `i` on, whose attempt succeeds. -/
def deliveredFrom (attempt : Nat → JSValue → Except JSError Bool) (q : List JSValue) (i : Nat) :
    Nat :=
  ((q.enumFrom i).filter (fun p => delivered (attempt p.1 p.2))).length

/-- The number K of failed delivery attempts of a pass over the snapshot `q`. -/
def failedAttempts (attempt : Nat → JSValue → Except JSError Bool) (q : List JSValue) : Nat :=
  failedFrom attempt q 0

/-- A network outcome with its HTTP status forgotten. -/
def FetchOutcome.withoutStatus : FetchOutcome → Option (Option JSValue)
  | .networkError => none
  | .response _ json => some json

/-- A worker on `localhost` with one window client, whose backend answers every request with
HTTP status 500 and the JSON body `ok: true`. -/
def acceptingEnv : Env :=
  { location := ⟨"localhost", "http://localhost:3000"⟩
    clients := [1]
    fetch := fun _ _ _ => .response 500 (some (.obj [("ok", .bool true)])) }

/-- The same worker with a backend that accepts the first request and answers the others with
HTTP status 200 and a JSON body whose `error` field is `true`. -/
def rejectingEnv : Env :=
  { location := ⟨"localhost", "http://localhost:3000"⟩
    clients := [1]
    fetch := fun i _ _ =>
      if i = 0 then .response 200 (some (.obj [("ok", .bool true)]))
      else .response 200 (some (.obj [("error", .bool true), ("message", .str "recusado")])) }

/-- A value that is `null` or `undefined`; reading a property of such a value throws a
TypeError. -/
def JSValue.isNullish : JSValue → Bool
  | .undefined => true
  | .null => true
  | _ => false

/-- The same worker with a backend that answers every request with HTTP status 200 and the JSON
body `success: true`. -/
def confirmingEnv : Env :=
  { location := ⟨"localhost", "http://localhost:3000"⟩
    clients := [1]
    fetch := fun _ _ _ => .response 200 (some (.obj [("success", .bool true)])) }

/-- The same worker with a backend that answers every request with HTTP status 200 and the JSON
body `null`. -/
def nullBodyEnv : Env :=
  { location := ⟨"localhost", "http://localhost:3000"⟩
    clients := [1]
    fetch := fun _ _ _ => .response 200 (some .null) }

/-- A queued order. -/
def sampleOrder : JSValue := .obj [("data", .obj [("tipo_refeicao", .str "almoco")])]

/-- A queued temperature reading. -/
def sampleReading : JSValue := .obj [("pedido_id", .num (.fin 1))]

/-- A queued order item whose `data` is `null`. -/
def nullDataOrder : JSValue := .obj [("data", .null)]

/-- Two queued orders. -/
def sampleOrders : List JSValue :=
  [.obj [("data", .obj [("tipo_refeicao", .str "almoco")])],
   .obj [("data", .obj [("tipo_refeicao", .str "jantar")])]]

/-- Two queued temperature readings. -/
def sampleReadings : List JSValue :=
  [.obj [("pedido_id", .num (.fin 1))], .obj [("pedido_id", .num (.fin 2))]]

/-- A worker whose mirrors hold the sample queues. -/
def loadedWorker : Worker :=
  { databaseQueueData := some sampleOrders
    temperaturaQueueData := some sampleReadings
    loginDataCache := .null }

/-- A worker whose mirrors are empty arrays. -/
def idleWorker : Worker :=
  { databaseQueueData := some [], temperaturaQueueData := some [], loginDataCache := .null }

/-! ## Supplier resolution, as the claims word it -/

/-- A record whose trimmed `FORNECEDOR` equals the trimmed label. -/
def nameEqualsLabel (label : String) (f : SupplierRecord) : Bool :=
  match f.FORNECEDOR with
  | some n => trim n == trim label
  | none => false

/-- The closure status as the claim states it: the `FECHAMENTO` of the cached record when the
selection is not custom, a record whose trimmed `FORNECEDOR` equals the trimmed label text
of the selected option exists, and its `FECHAMENTO` is a non-empty string; else the empty
string. -/
def closureStatusClaimed (doc : Document) (fornecedores : List SupplierRecord)
    (mealType : String) : String :=
  match doc.querySelector (SupplierManager.selectorFor mealType) with
  | none => ""
  | some select =>
    if select.value = "__custom__" then ""
    else
      match select.selectedOption with
      | none => ""
      | some option =>
        match fornecedores.find? (nameEqualsLabel option.text) with
        | some record => record.FECHAMENTO.getD ""
        | none => ""

/-- The closure status as amended: as claimed, and the label text of the selected option must
not be blank. -/
def closureStatusAmended (doc : Document) (fornecedores : List SupplierRecord)
    (mealType : String) : String :=
  match doc.querySelector (SupplierManager.selectorFor mealType) with
  | none => ""
  | some select =>
    if select.value = "__custom__" then ""
    else
      match select.selectedOption with
      | none => ""
      | some option =>
        if trim option.text = "" then ""
        else
          match fornecedores.find? (nameEqualsLabel option.text) with
          | some record => record.FECHAMENTO.getD ""
          | none => ""

/-- No price override: the price input is missing, or its text is empty or only white space. -/
def NoOverride (doc : Document) (mealType : String) : Prop :=
  match doc.getElementById ("price-" ++ mealType) with
  | none => True
  | some priceInput => trim priceInput.value = ""

/-- The supplier list of the examples: one supplier with closure `SIM` and unit price 9. -/
def sampleCache : List SupplierRecord :=
  [{ FORNECEDOR := some "Restaurante Bom", FECHAMENTO := some "SIM", VALOR := .num (.fin 9) }]

/-- A page for the meal `almoco`: the supplier select offers `Restaurante Bom` and the custom
entry, the option at `selected` is chosen, the free-text input holds `Restaurante Bom` and
the price input holds `price`. -/
def sampleDocument (selected : Nat) (price : String) : Document :=
  { querySelector := fun selector =>
      if selector = "select[data-meal=\"almoco\"]" then
        some
          { options := [⟨"rb", " Restaurante Bom "⟩, ⟨"__custom__", "Outro"⟩]
            selectedIndex := some selected }
      else none
    getElementById := fun id =>
      if id = "price-almoco" then some ⟨price⟩
      else if id = "supplier-input-almoco" then some ⟨"Restaurante Bom"⟩
      else none }

/-- A page for `almoco` whose selected option has an empty label. -/
def blankLabelDocument : Document :=
  { querySelector := fun selector =>
      if selector = "select[data-meal=\"almoco\"]" then
        some { options := [⟨"x", ""⟩], selectedIndex := some 0 }
      else none
    getElementById := fun _ => none }

/-- A supplier list with one record whose name is a single space and whose closure is `SIM`. -/
def namelessCache : List SupplierRecord :=
  [{ FORNECEDOR := some " ", FECHAMENTO := some "SIM", VALOR := .absent }]

/-! ## Worker events, as the claims word them -/

/-- An event that is not a `SAVE_LOGIN` or `CLEAR_LOGIN` message. -/
def Event.keepsLogin : Event → Bool
  | .message event => event.type != "SAVE_LOGIN" && event.type != "CLEAR_LOGIN"
  | _ => true

/-- A resumption of the first pass in flight. -/
def Event.isAdvance : Event → Bool
  | .advance 0 => true
  | _ => false

/-- A resumption of the first pass in flight, or an `UPDATE_DATABASE_QUEUE` message. -/
def Event.isAdvanceOrReplace : Event → Bool
  | .advance 0 => true
  | .message event => event.type == "UPDATE_DATABASE_QUEUE"
  | _ => false

/-- A worker location on the IPv6 loopback address. -/
def ipv6LoopbackLocation : Location :=
  { hostname := "[::1]", origin := "http://[::1]:3000" }

/-- A supplier list whose only record has the closure text `NAO`. -/
def otherClosureCache : List SupplierRecord :=
  [{ FORNECEDOR := some "Restaurante Bom", FECHAMENTO := some "NAO", VALOR := .absent }]

/-- A `GET_LOGIN` request with reply port 7. -/
def getLoginRequest : MessageEvent :=
  { type := "GET_LOGIN", queue := none, data := .undefined, ports := [7] }

/-- The login payload of the examples. -/
def sampleLogin : JSValue := .obj [("equipe", .str "A"), ("nome", .str "Ana")]

/-- The worker globals after the `UPDATE_DATABASE_QUEUE` messages of a sequence of events that
are resumptions of a pass or such messages: each message replaces the order mirror. -/
def Worker.afterReplacements (w : Worker) : List Event → Worker
  | [] => w
  | .message event :: rest =>
    Worker.afterReplacements { w with databaseQueueData := event.queue } rest
  | _ :: rest => Worker.afterReplacements w rest

/-- A queued order that is not among the sample orders. -/
def lateOrder : JSValue := .obj [("data", .obj [("tipo_refeicao", .str "ceia")])]

/-! ## Storage facts -/


theorem lookup_map_replace (t : List (String × String)) (k v k2 : String) :
    List.lookup k2 (t.map (fun p => if p.1 == k then (k, v) else p)) =
      if k2 = k then (if t.any (fun p => p.1 == k) then some v else none)
      else List.lookup k2 t := by
  induction t with
  | nil => simp [List.lookup]
  | cons p t ih =>
    obtain ⟨a, b⟩ := p
    simp only [List.map_cons, List.any_cons]
    by_cases hak : a = k
    · subst hak
      simp only [beq_self_eq_true, if_true, Bool.true_or, List.lookup_cons]
      by_cases h2 : k2 = a
      · subst h2; simp
      · have : (k2 == a) = false := by simpa using h2
        simp only [this, ih, if_neg h2]
    · have hak' : (a == k) = false := by simpa using hak
      simp only [hak', Bool.false_or, List.lookup_cons, Bool.false_eq_true, if_false]
      by_cases h2 : k2 = a
      · subst h2
        simp [hak]
      · have : (k2 == a) = false := by simpa using h2
        simp only [this, ih]

theorem lookup_append_single (t : List (String × String)) (k v k2 : String) :
    List.lookup k2 (t ++ [(k, v)]) =
      match List.lookup k2 t with
      | some x => some x
      | none => if k2 = k then some v else none := by
  induction t with
  | nil =>
    by_cases h : k2 = k
    · subst h; simp [List.lookup]
    · have : (k2 == k) = false := by simpa using h
      simp [List.lookup, this, h]
  | cons p t ih =>
    obtain ⟨a, b⟩ := p
    simp only [List.cons_append, List.lookup_cons]
    by_cases h2 : k2 = a
    · subst h2; simp
    · have : (k2 == a) = false := by simpa using h2
      simp only [this, ih]

theorem lookup_eq_none_of_not_any (t : List (String × String)) (k : String)
    (h : t.any (fun p => p.1 == k) = false) : List.lookup k t = none := by
  induction t with
  | nil => rfl
  | cons p t ih =>
    obtain ⟨a, b⟩ := p
    simp only [List.any_cons, Bool.or_eq_false_iff] at h
    have : (k == a) = false := by
      have := h.1
      simp only [beq_eq_false_iff_ne, ne_eq] at this ⊢
      exact fun h => this h.symm
    simp only [List.lookup_cons, this]
    exact ih h.2

theorem lookup_filter_ne (t : List (String × String)) (k k2 : String) :
    List.lookup k2 (t.filter (fun p => p.1 != k)) = if k2 = k then none else List.lookup k2 t := by
  induction t with
  | nil => simp [List.lookup]
  | cons p t ih =>
    obtain ⟨a, b⟩ := p
    rw [List.filter_cons]
    by_cases hak : a = k
    · subst hak
      have h1 : ((a, b).1 != a) = false := by simp
      simp only [h1, Bool.false_eq_true, if_false, ih]
      by_cases h2 : k2 = a
      · simp [h2]
      · have : (k2 == a) = false := by simpa using h2
        simp [h2, List.lookup_cons, this]
    · have h1 : ((a, b).1 != k) = true := by simpa using hak
      simp only [h1, if_true, List.lookup_cons, ih]
      by_cases h2 : k2 = a
      · subst h2; simp [hak]
      · have : (k2 == a) = false := by simpa using h2
        simp only [this]

theorem Storage.getItem_setItem_self (s : Storage) (k v : String) :
    (s.setItem k v).getItem k = some v := by
  unfold Storage.setItem Storage.getItem
  split
  · rename_i h
    rw [lookup_map_replace]
    simp [h]
  · rename_i h
    have h2 : s.any (fun p => p.1 == k) = false := by
      cases hb : s.any (fun p => p.1 == k)
      · rfl
      · exact absurd hb h
    rw [lookup_append_single, lookup_eq_none_of_not_any s k h2]
    simp

theorem Storage.getItem_setItem_other (s : Storage) (k v k2 : String) (h : k2 ≠ k) :
    (s.setItem k v).getItem k2 = s.getItem k2 := by
  unfold Storage.setItem Storage.getItem
  split
  · rw [lookup_map_replace]
    simp [h]
  · rw [lookup_append_single]
    cases List.lookup k2 s <;> simp [h]

theorem Storage.getItem_removeItem (s : Storage) (k k2 : String) :
    (s.removeItem k).getItem k2 = if k2 = k then none else s.getItem k2 := by
  unfold Storage.removeItem Storage.getItem
  exact lookup_filter_ne s k k2

theorem Storage.getItem_eq_none_of_not_mem_keys (s : Storage) (k : String) (h : k ∉ s.keys) :
    s.getItem k = none := by
  unfold Storage.getItem
  apply lookup_eq_none_of_not_any
  rw [Bool.eq_false_iff]
  intro hany
  rw [List.any_eq_true] at hany
  obtain ⟨p, hp, hk⟩ := hany
  apply h
  unfold Storage.keys
  rw [List.mem_map]
  exact ⟨p, hp, by simpa using hk⟩

theorem getItem_foldl_remove (ks : List String) (acc : Storage) (k : String) :
    Storage.getItem
      (ks.foldl (fun a key => if startsWith key CacheManager.PREFIX then a.removeItem key else a)
        acc) k =
      if startsWith k CacheManager.PREFIX = true ∧ k ∈ ks then none else acc.getItem k := by
  induction ks generalizing acc with
  | nil => simp
  | cons key ks ih =>
    rw [List.foldl_cons, ih]
    by_cases hmem : startsWith k CacheManager.PREFIX = true ∧ k ∈ ks
    · have : startsWith k CacheManager.PREFIX = true ∧ k ∈ key :: ks :=
        ⟨hmem.1, List.mem_cons_of_mem _ hmem.2⟩
      rw [if_pos hmem, if_pos this]
    · rw [if_neg hmem]
      by_cases hkey : startsWith key CacheManager.PREFIX = true
      · rw [if_pos hkey, Storage.getItem_removeItem]
        by_cases hk : k = key
        · subst hk
          rw [if_pos rfl, if_pos ⟨hkey, List.mem_cons_self _ _⟩]
        · rw [if_neg hk]
          have : ¬ (startsWith k CacheManager.PREFIX = true ∧ k ∈ key :: ks) := by
            rintro ⟨h1, h2⟩
            rcases List.mem_cons.mp h2 with h3 | h3
            · exact hk h3
            · exact hmem ⟨h1, h3⟩
          rw [if_neg this]
      · rw [if_neg hkey]
        have : ¬ (startsWith k CacheManager.PREFIX = true ∧ k ∈ key :: ks) := by
          rintro ⟨h1, h2⟩
          rcases List.mem_cons.mp h2 with h3 | h3
          · exact hkey (h3 ▸ h1)
          · exact hmem ⟨h1, h3⟩
        rw [if_neg this]

theorem getItem_removeAllWithPrefix (s : Storage) (k : String) :
    (CacheManager.removeAllWithPrefix s).getItem k =
      if startsWith k CacheManager.PREFIX = true then none else s.getItem k := by
  unfold CacheManager.removeAllWithPrefix
  rw [getItem_foldl_remove]
  by_cases h : startsWith k CacheManager.PREFIX = true
  · rw [if_pos h]
    by_cases hm : k ∈ s.keys
    · rw [if_pos ⟨h, hm⟩]
    · rw [if_neg (fun hh => hm hh.2), Storage.getItem_eq_none_of_not_mem_keys s k hm]
  · rw [if_neg h, if_neg (fun hh => h hh.1)]

theorem startsWith_append (p k : String) : startsWith (p ++ k) p = true := by
  unfold startsWith
  rw [List.isPrefixOf_iff_prefix]
  show p.toList <+: (p ++ k).toList
  rw [String.toList, String.toList, String.data_append]
  exact List.prefix_append _ _

theorem startsWith_append_append (p k t : String) : startsWith (p ++ k ++ t) p = true := by
  rw [String.append_assoc]
  exact startsWith_append p (k ++ t)

theorem string_append_left_cancel (p a b : String) (h : p ++ a = p ++ b) : a = b := by
  have h2 := congrArg String.data h
  rw [String.data_append, String.data_append] at h2
  exact String.ext (List.append_cancel_left h2)

theorem string_append_right_cancel (a b t : String) (h : a ++ t = b ++ t) : a = b := by
  have h2 := congrArg String.data h
  rw [String.data_append, String.data_append] at h2
  exact String.ext (List.append_cancel_right h2)

/-! ## CacheManager: facts about `cacheData`, `get` and `isValid` -/

theorem getProp_cacheData_equipe (v : JSValue) (now : Int) (equipe : String) :
    (CacheManager.cacheData v now equipe).getProp "equipe" = .ok (.str equipe) := by
  rfl

theorem getProp_cacheData_value (v : JSValue) (now : Int) (equipe : String) :
    (CacheManager.cacheData v now equipe).getProp "value" = .ok v := by
  rfl

theorem getProp_cacheData_timestamp (v : JSValue) (now : Int) (equipe : String) :
    (CacheManager.cacheData v now equipe).getProp "timestamp" = .ok (.num (.fin now)) := by
  rfl

theorem strictEqStr_str (s : String) : (JSValue.str s).strictEqStr s = true := by
  simp [JSValue.strictEqStr]

theorem isNonEmptyArray_initialCache (k : String) :
    (initialCache k).isNonEmptyArray = false := by
  show (CacheObject.read initialCache k).isNonEmptyArray = false
  unfold CacheObject.read initialCache
  simp only
  split_ifs <;> rfl

theorem parse_ne_empty (P : Platform) (text : String) (data : JSValue)
    (h : P.JSONparse text = some data) : text ≠ "" := by
  intro he
  rw [he, P.JSONparse_empty] at h
  exact Option.noConfusion h

/-! ## Claims -/

/-- C1 (code defect). After `set("fornecedores", list)` under team `A`, a `get("fornecedores")`
under team `B` returns the list instead of `null`: with the memory tier populated it is
served from memory, and with the memory tier reset it is served from the sessionStorage
backup after the localStorage entry was skipped for its team. -/
theorem C1_cross_team_read_returns_entry :
    (CacheManager.get refPlatform
      { CacheManager.set refPlatform ⟨true, true⟩ 1000 (freshPage "A") "fornecedores"
          sampleSuppliers with equipe := "B" } "fornecedores").1 = sampleSuppliers ∧
    (CacheManager.get refPlatform
      { CacheManager.set refPlatform ⟨true, true⟩ 1000 (freshPage "A") "fornecedores"
          sampleSuppliers with equipe := "B", cache := initialCache } "fornecedores").1 =
      sampleSuppliers := by
  constructor
  · with_unfolding_all rfl
  · with_unfolding_all rfl

/-- C4. Round trip across a reload: when `set(key, v)` completes with both storage writes
succeeding and the entry survives JSON serialisation, then with the memory tier reset to its
initial state, localStorage retained, the same team and any sessionStorage content,
`get(key)` returns `v`. -/
theorem C4_set_get_roundtrip_after_reload (P : Platform) (now : Int) (st : Page)
    (key : String) (v : JSValue) (session : Storage)
    (hser : P.JSONparse (P.JSONstringify (CacheManager.cacheData v now st.equipe)) =
      some (CacheManager.cacheData v now st.equipe)) :
    (CacheManager.get P
      { equipe := st.equipe
        cache := initialCache
        localStorage := (CacheManager.set P ⟨true, true⟩ now st key v).localStorage
        sessionStorage := session } key).1 = v := by
  have hne := parse_ne_empty P _ _ hser
  simp only [CacheManager.get, CacheManager.getTry, CacheManager.getLocal, CacheManager.set,
    isNonEmptyArray_initialCache, Bool.false_eq_true, if_false, if_true,
    Storage.getItem_setItem_self, hne, hser, getProp_cacheData_equipe, strictEqStr_str,
    getProp_cacheData_value]

/-- C4 at a concrete input: a supplier list written under team `A` on the reference platform
survives serialisation and is read back after the reload. -/
theorem C4_set_get_roundtrip_after_reload_witness :
    refPlatform.JSONparse
        (refPlatform.JSONstringify (CacheManager.cacheData sampleSuppliers 1000 "A")) =
      some (CacheManager.cacheData sampleSuppliers 1000 "A") ∧
    (CacheManager.get refPlatform
      { equipe := (freshPage "A").equipe
        cache := initialCache
        localStorage := (CacheManager.set refPlatform ⟨true, true⟩ 1000 (freshPage "A")
          "fornecedores" sampleSuppliers).localStorage
        sessionStorage := [] } "fornecedores").1 = sampleSuppliers :=
  ⟨by with_unfolding_all rfl,
    C4_set_get_roundtrip_after_reload refPlatform 1000 (freshPage "A") "fornecedores"
      sampleSuppliers [] (by with_unfolding_all rfl)⟩

/-- C6. With a parseable localStorage entry whose `timestamp` is the integer `t`,
`isValid(key, maxAge)` at time `now` is true exactly when `now - t < maxAge`: true at age
`maxAge - 1`, false at age `maxAge`, and with `maxAge` omitted the bound is 86 400 000.
Without an entry for the key it is false. -/
theorem C6_isValid_iff_age_below_maxAge (P : Platform) (now : Int) (st : Page)
    (key : String) :
    (st.localStorage.getItem (CacheManager.PREFIX ++ key) = none →
      ∀ maxAge, CacheManager.isValid P now st key maxAge = false) ∧
    (∀ (text : String) (data : JSValue) (t : Int),
      st.localStorage.getItem (CacheManager.PREFIX ++ key) = some text →
      P.JSONparse text = some data →
      data.getProp "timestamp" = .ok (.num (.fin t)) →
      (∀ maxAge : JSNum,
        CacheManager.isValid P now st key (some maxAge) =
          JSNum.lt (.fin ((now - t : Int) : Rat)) maxAge) ∧
      (∀ maxAge : Rat,
        CacheManager.isValid P now st key (some (.fin maxAge)) = true ↔
          ((now - t : Int) : Rat) < maxAge) ∧
      (∀ maxAge : Int, now - t = maxAge - 1 →
        CacheManager.isValid P now st key (some (.fin maxAge)) = true) ∧
      (∀ maxAge : Int, now - t = maxAge →
        CacheManager.isValid P now st key (some (.fin maxAge)) = false) ∧
      (CacheManager.isValid P now st key none = true ↔ now - t < 86400000)) := by
  constructor
  · intro h maxAge
    simp [CacheManager.isValid, CacheManager.isValidTry, h]
  · intro text data t hget hparse hts
    have hne := parse_ne_empty P text data hparse
    have hgen : ∀ maxAge : Rat,
        CacheManager.isValid P now st key (some (.fin maxAge)) = true ↔
          ((now - t : Int) : Rat) < maxAge := by
      intro maxAge
      simp [CacheManager.isValid, CacheManager.isValidTry, hget, hne, hparse, hts,
        Platform.ToNumber, JSNum.sub, JSNum.lt]
    refine ⟨?_, hgen, ?_, ?_, ?_⟩
    · intro maxAge
      simp [CacheManager.isValid, CacheManager.isValidTry, hget, hne, hparse, hts,
        Platform.ToNumber, JSNum.sub]
    · intro maxAge hage
      rw [hgen, hage]
      push_cast
      linarith
    · intro maxAge hage
      rw [Bool.eq_false_iff]
      intro hv
      rw [hgen, hage] at hv
      exact lt_irrefl _ hv
    · have h := hgen 86400000
      have hd : CacheManager.isValid P now st key none =
          CacheManager.isValid P now st key (some (.fin 86400000)) := by
        simp only [CacheManager.isValid, Option.getD, CacheManager.defaultMaxAge]
        norm_num
      rw [hd, h]
      constructor
      · intro hh
        exact_mod_cast hh
      · intro hh
        exact_mod_cast hh

/-- C6 at a concrete input: an entry stamped at 1000 and read at 1500 has age 500, which is
valid for `maxAge` 501 and stale for `maxAge` 500; a page without the entry is never valid. -/
theorem C6_isValid_iff_age_below_maxAge_witness :
    stampedPage.localStorage.getItem (CacheManager.PREFIX ++ "fornecedores") =
      some (refPlatform.JSONstringify (CacheManager.cacheData sampleSuppliers 1000 "A")) ∧
    CacheManager.isValid refPlatform 1500 stampedPage "fornecedores"
      (some (.fin ((501 : Int) : Rat))) = true ∧
    CacheManager.isValid refPlatform 1500 stampedPage "fornecedores"
      (some (.fin ((500 : Int) : Rat))) = false ∧
    CacheManager.isValid refPlatform 1500 (freshPage "A") "fornecedores" none = false :=
  have h := (C6_isValid_iff_age_below_maxAge refPlatform 1500 stampedPage "fornecedores").2
    (refPlatform.JSONstringify (CacheManager.cacheData sampleSuppliers 1000 "A"))
    (CacheManager.cacheData sampleSuppliers 1000 "A") 1000
    (by with_unfolding_all rfl) (by with_unfolding_all rfl) (by rfl)
  ⟨by with_unfolding_all rfl, h.2.2.1 501 (by norm_num), h.2.2.2.1 500 (by norm_num),
    (C6_isValid_iff_age_below_maxAge refPlatform 1500 (freshPage "A") "fornecedores").1
      (by rfl) none⟩

theorem getLocal_of_localMiss (P : Platform) (st : Page) (key : String)
    (h : LocalMiss P st key) :
    CacheManager.getLocal P st key = CacheManager.getSession P st key := by
  unfold CacheManager.getLocal
  rcases h with h | h | ⟨text, data, e, hget, hparse, he, hneq⟩
  · rw [h]
  · rw [h]
    simp
  · have hne := parse_ne_empty P text data hparse
    rw [hget]
    simp [hne, hparse, he, hneq]

/-- C7 (counterexample). The memory tier holds a value for `fornecedores`, the empty array of
the initial state, yet `get` returns the list stored in localStorage; and with a localStorage
entry that is not JSON, `get` returns `null` although the session backup holds an entry. -/
theorem C7_counterexample :
    reloadedPage.cache "fornecedores" = .arr [] ∧
    (CacheManager.get refPlatform reloadedPage "fornecedores").1 = sampleSuppliers ∧
    (CacheManager.get refPlatform reloadedPage "fornecedores").1 ≠
      reloadedPage.cache "fornecedores" ∧
    brokenLocalPage.sessionStorage.getItem
        (CacheManager.PREFIX ++ "fornecedores" ++ "_backup") =
      some (refPlatform.JSONstringify (CacheManager.cacheData sampleSuppliers 1000 "A")) ∧
    (CacheManager.get refPlatform brokenLocalPage "fornecedores").1 = .null := by
  have h1 : reloadedPage.cache "fornecedores" = .arr [] := by rfl
  have h2 : (CacheManager.get refPlatform reloadedPage "fornecedores").1 = sampleSuppliers := by
    with_unfolding_all rfl
  refine ⟨h1, h2, ?_, by with_unfolding_all rfl, by with_unfolding_all rfl⟩
  rw [h1, h2]
  intro h
  simp [sampleSuppliers] at h

/-- C7 (amended). Order of the tiers in `get(key)`: a non-empty array in memory is returned
whatever the storages hold; otherwise a localStorage entry that parses to a value whose
`equipe` is the current team gives that value's `value` field whatever sessionStorage holds;
otherwise, when the localStorage entry is absent, empty or of another team, a session backup
that parses to a value other than `null` gives that value's `value` field, and an absent or
empty session backup gives `null`. -/
theorem C7_get_tier_order (P : Platform) (st : Page) (key : String) :
    (∀ x xs, st.cache key = .arr (x :: xs) →
      (CacheManager.get P st key).1 = .arr (x :: xs)) ∧
    ((st.cache key).isNonEmptyArray = false →
      (∀ data v, LocalHit P st key data → data.getProp "value" = .ok v →
        (CacheManager.get P st key).1 = v) ∧
      (LocalMiss P st key →
        (∀ text data v,
          st.sessionStorage.getItem (CacheManager.PREFIX ++ key ++ "_backup") = some text →
          P.JSONparse text = some data → data.getProp "value" = .ok v →
          (CacheManager.get P st key).1 = v) ∧
        (st.sessionStorage.getItem (CacheManager.PREFIX ++ key ++ "_backup") = none ∨
          st.sessionStorage.getItem (CacheManager.PREFIX ++ key ++ "_backup") = some "" →
          (CacheManager.get P st key).1 = .null))) := by
  refine ⟨?_, ?_⟩
  · intro x xs h
    simp [CacheManager.get, CacheManager.getTry, h, JSValue.isNonEmptyArray]
  · intro hmem
    refine ⟨?_, ?_⟩
    · rintro data v ⟨text, e, hget, hparse, he, heq⟩ hv
      have hne := parse_ne_empty P text data hparse
      simp [CacheManager.get, CacheManager.getTry, hmem, CacheManager.getLocal, hget, hne,
        hparse, he, heq, hv]
    · intro hmiss
      have hl := getLocal_of_localMiss P st key hmiss
      refine ⟨?_, ?_⟩
      · intro text data v hget hparse hv
        have hne := parse_ne_empty P text data hparse
        simp [CacheManager.get, CacheManager.getTry, hmem, hl, CacheManager.getSession, hget,
          hne, hparse, hv]
      · rintro (h | h)
        · simp [CacheManager.get, CacheManager.getTry, hmem, hl, CacheManager.getSession, h]
        · simp [CacheManager.get, CacheManager.getTry, hmem, hl, CacheManager.getSession, h]

/-- C7 (amended) at concrete inputs: a list in memory; a same-team localStorage entry after a
reload; no localStorage entry and a session backup; another team's localStorage entry and
no session backup. -/
theorem C7_get_tier_order_witness :
    (CacheManager.get refPlatform
      (CacheManager.set refPlatform ⟨true, true⟩ 1000 (freshPage "A") "fornecedores"
        sampleSuppliers) "fornecedores").1 = sampleSuppliers ∧
    (CacheManager.get refPlatform reloadedPage "fornecedores").1 = sampleSuppliers ∧
    (CacheManager.get refPlatform { brokenLocalPage with localStorage := [] }
      "fornecedores").1 = sampleSuppliers ∧
    (CacheManager.get refPlatform { reloadedPage with equipe := "B" } "fornecedores").1 =
      .null :=
  ⟨(C7_get_tier_order refPlatform _ "fornecedores").1 (.obj [("FORNECEDOR", .str "X")]) []
      (by rfl),
    ((C7_get_tier_order refPlatform reloadedPage "fornecedores").2 (by rfl)).1
      (CacheManager.cacheData sampleSuppliers 1000 "A") sampleSuppliers
      ⟨_, .str "A", by with_unfolding_all rfl, by with_unfolding_all rfl, by rfl, by rfl⟩
      (by rfl),
    (((C7_get_tier_order refPlatform _ "fornecedores").2 (by rfl)).2
      (Or.inl (by rfl))).1 _ (CacheManager.cacheData sampleSuppliers 1000 "A")
      sampleSuppliers (by with_unfolding_all rfl) (by with_unfolding_all rfl) (by rfl),
    (((C7_get_tier_order refPlatform _ "fornecedores").2 (by rfl)).2
      (Or.inr (Or.inr ⟨_, CacheManager.cacheData sampleSuppliers 1000 "A", .str "A",
        by with_unfolding_all rfl, by with_unfolding_all rfl, by rfl, by rfl⟩))).2
      (Or.inl (by rfl))⟩

/-- C8 (counterexample). The sessionStorage backup holds the text `5`, which parses to a number
and so to a non-object; `get` returns `undefined`, not `null`. -/
theorem C8_counterexample :
    numberBackupPage.sessionStorage.getItem
      (CacheManager.PREFIX ++ "fornecedores" ++ "_backup") = some "5" ∧
    refPlatform.JSONparse "5" = some (.num (.fin 5)) ∧
    (CacheManager.get refPlatform numberBackupPage "fornecedores").1 = .undefined ∧
    (CacheManager.get refPlatform numberBackupPage "fornecedores").1 ≠ .null := by
  have h : (CacheManager.get refPlatform numberBackupPage "fornecedores").1 = .undefined := by
    with_unfolding_all rfl
  refine ⟨by rfl, by with_unfolding_all rfl, h, ?_⟩
  rw [h]
  intro hh
  cases hh

/-- C8 (amended). The functions `get` and `isValid` never raise: `get` returns what its `try` block
returns, or `null` with the state unchanged, and `isValid` is a boolean. An entry that is not
valid JSON or that parses to `null` yields `null` from `get` in the tier that is read, and
an entry that is not valid JSON or parses to `null`, a boolean, a number or a string yields
`false` from `isValid`. An entry that parses to a boolean, number or string is passed over by
`get` in the localStorage tier and yields `undefined` in the sessionStorage tier. -/
theorem C8_malformed_entries (P : Platform) (now : Int) (st : Page) (key : String) :
    ((∃ r, CacheManager.getTry P st key = .ok r ∧ CacheManager.get P st key = r) ∨
      CacheManager.get P st key = (.null, st)) ∧
    ((st.cache key).isNonEmptyArray = false →
      (∀ text, st.localStorage.getItem (CacheManager.PREFIX ++ key) = some text →
        Unreadable P text → CacheManager.get P st key = (.null, st)) ∧
      (∀ text data, st.localStorage.getItem (CacheManager.PREFIX ++ key) = some text →
        P.JSONparse text = some data → data.isScalar = true →
        CacheManager.getTry P st key = CacheManager.getSession P st key) ∧
      (LocalMiss P st key →
        (∀ text,
          st.sessionStorage.getItem (CacheManager.PREFIX ++ key ++ "_backup") = some text →
          Unreadable P text → CacheManager.get P st key = (.null, st)) ∧
        (∀ text data,
          st.sessionStorage.getItem (CacheManager.PREFIX ++ key ++ "_backup") = some text →
          P.JSONparse text = some data → data.isScalar = true →
          (CacheManager.get P st key).1 = .undefined))) ∧
    (∀ maxAge text, st.localStorage.getItem (CacheManager.PREFIX ++ key) = some text →
      (P.JSONparse text = none ∨ P.JSONparse text = some .null ∨
        ∃ data, P.JSONparse text = some data ∧ data.isScalar = true) →
      CacheManager.isValid P now st key maxAge = false) := by
  refine ⟨?_, ?_, ?_⟩
  · unfold CacheManager.get
    cases h : CacheManager.getTry P st key with
    | ok r => exact Or.inl ⟨r, rfl, rfl⟩
    | error e => exact Or.inr rfl
  · intro hmem
    refine ⟨?_, ?_, ?_⟩
    · rintro text hget ⟨hne, hp | hp⟩
      · simp [CacheManager.get, CacheManager.getTry, hmem, CacheManager.getLocal, hget, hne, hp]
      · simp [CacheManager.get, CacheManager.getTry, hmem, CacheManager.getLocal, hget, hne, hp,
          JSValue.getProp]
    · intro text data hget hparse hsc
      have hne := parse_ne_empty P text data hparse
      cases data <;> simp [JSValue.isScalar] at hsc <;>
        simp [CacheManager.getTry, hmem, CacheManager.getLocal, hget, hne, hparse,
          JSValue.getProp, JSValue.strictEqStr]
    · intro hmiss
      have hl := getLocal_of_localMiss P st key hmiss
      refine ⟨?_, ?_⟩
      · rintro text hget ⟨hne, hp | hp⟩
        · simp [CacheManager.get, CacheManager.getTry, hmem, hl, CacheManager.getSession, hget,
            hne, hp]
        · simp [CacheManager.get, CacheManager.getTry, hmem, hl, CacheManager.getSession, hget,
            hne, hp, JSValue.getProp]
      · intro text data hget hparse hsc
        have hne := parse_ne_empty P text data hparse
        cases data <;> simp [JSValue.isScalar] at hsc <;>
          simp [CacheManager.get, CacheManager.getTry, hmem, hl, CacheManager.getSession, hget,
            hne, hparse, JSValue.getProp]
  · rintro maxAge text hget (hp | hp | ⟨data, hp, hsc⟩)
    · by_cases hne : text = ""
      · simp [CacheManager.isValid, CacheManager.isValidTry, hget, hne]
      · simp [CacheManager.isValid, CacheManager.isValidTry, hget, hne, hp]
    · have hne := parse_ne_empty P text _ hp
      simp [CacheManager.isValid, CacheManager.isValidTry, hget, hne, hp, JSValue.getProp]
    · have hne := parse_ne_empty P text _ hp
      cases data <;> simp [JSValue.isScalar] at hsc <;>
        simp [CacheManager.isValid, CacheManager.isValidTry, hget, hne, hp, JSValue.getProp,
          Platform.ToNumber, JSNum.sub, JSNum.lt]

/-- C8 (amended) at a concrete input: a localStorage entry that is not JSON. -/
theorem C8_malformed_entries_witness :
    Unreadable refPlatform "not json" ∧
    CacheManager.get refPlatform brokenLocalPage "fornecedores" = (.null, brokenLocalPage) ∧
    CacheManager.isValid refPlatform 1500 brokenLocalPage "fornecedores" none = false :=
  have hu : Unreadable refPlatform "not json" := ⟨by decide, Or.inl (by rfl)⟩
  ⟨hu,
    ((C8_malformed_entries refPlatform 1500 brokenLocalPage "fornecedores").2.1 (by rfl)).1
      "not json" (by rfl) hu,
    (C8_malformed_entries refPlatform 1500 brokenLocalPage "fornecedores").2.2 none
      "not json" (by rfl) (Or.inl (by rfl))⟩

theorem clear_of_key (st : Page) (k : String) (hk : k ≠ "") :
    CacheManager.clear st (some k) =
      { st with
        cache := st.cache.delete k
        localStorage := st.localStorage.removeItem (CacheManager.PREFIX ++ k)
        sessionStorage := st.sessionStorage.removeItem (CacheManager.PREFIX ++ k ++ "_backup") } := by
  simp [CacheManager.clear, hk]

/-- For a non-empty key `k`, `clear(k)` deletes the own property `k` of the memory object and
removes the two storage entries of `k`; the prototype of the memory object and the entries of
every other key in the three tiers stay. With the prototype still `Object.prototype`,
`get(k)` is `null` afterwards. -/
theorem clear_key_effects (P : Platform) (st : Page) (k : String) (hk : k ≠ "") :
    (CacheManager.clear st (some k)).cache.own k = none ∧
    (CacheManager.clear st (some k)).cache.proto = st.cache.proto ∧
    (CacheManager.clear st (some k)).localStorage.getItem (CacheManager.PREFIX ++ k) = none ∧
    (CacheManager.clear st (some k)).sessionStorage.getItem
      (CacheManager.PREFIX ++ k ++ "_backup") = none ∧
    (st.cache.proto = .objectPrototype →
      (CacheManager.get P (CacheManager.clear st (some k)) k).1 = .null) ∧
    (∀ k2, k2 ≠ k →
      (CacheManager.clear st (some k)).cache k2 = st.cache k2 ∧
      (CacheManager.clear st (some k)).localStorage.getItem (CacheManager.PREFIX ++ k2) =
        st.localStorage.getItem (CacheManager.PREFIX ++ k2) ∧
      (CacheManager.clear st (some k)).sessionStorage.getItem
          (CacheManager.PREFIX ++ k2 ++ "_backup") =
        st.sessionStorage.getItem (CacheManager.PREFIX ++ k2 ++ "_backup")) := by
  have hc := clear_of_key st k hk
  have h1 : (CacheManager.clear st (some k)).cache.own k = none := by
    rw [hc]
    simp [CacheObject.delete]
  have h2 : (CacheManager.clear st (some k)).localStorage.getItem (CacheManager.PREFIX ++ k) =
      none := by
    rw [hc]
    simp [Storage.getItem_removeItem]
  have h3 : (CacheManager.clear st (some k)).sessionStorage.getItem
      (CacheManager.PREFIX ++ k ++ "_backup") = none := by
    rw [hc]
    simp [Storage.getItem_removeItem]
  refine ⟨h1, by rw [hc]; rfl, h2, h3, ?_, ?_⟩
  · intro hp
    have hm : (CacheManager.clear st (some k)).cache k = .undefined := by
      show CacheObject.read _ k = .undefined
      unfold CacheObject.read
      rw [h1]
      rw [hc]
      simp [CacheObject.delete, hp, CacheObject.inherited]
    simp [CacheManager.get, CacheManager.getTry, hm, JSValue.isNonEmptyArray,
      CacheManager.getLocal, h2, CacheManager.getSession, h3]
  · intro k2 hk2
    have hl : CacheManager.PREFIX ++ k2 ≠ CacheManager.PREFIX ++ k :=
      fun h => hk2 (string_append_left_cancel _ _ _ h)
    have hs : CacheManager.PREFIX ++ k2 ++ "_backup" ≠ CacheManager.PREFIX ++ k ++ "_backup" :=
      fun h => hl (string_append_right_cancel _ _ _ h)
    rw [hc]
    refine ⟨?_, ?_, ?_⟩
    · show CacheObject.read _ k2 = CacheObject.read _ k2
      simp [CacheObject.read, CacheObject.delete, Function.update, hk2]
    · simp [Storage.getItem_removeItem, hl]
    · simp [Storage.getItem_removeItem, hs]

/-- After `clear()` without argument `get` returns `null` for every key, and every storage key
that does not start with `PREFIX` is unchanged; `clear("")` is `clear()`. -/
theorem clear_all_effects (P : Platform) (st : Page) :
    (∀ k2, (CacheManager.get P (CacheManager.clear st none) k2).1 = .null) ∧
    (∀ sk, startsWith sk CacheManager.PREFIX = false →
      (CacheManager.clear st none).localStorage.getItem sk = st.localStorage.getItem sk ∧
      (CacheManager.clear st none).sessionStorage.getItem sk =
        st.sessionStorage.getItem sk) ∧
    CacheManager.clear st (some "") = CacheManager.clear st none := by
  refine ⟨?_, ?_, by rfl⟩
  · intro k2
    have hl : (CacheManager.clear st none).localStorage.getItem (CacheManager.PREFIX ++ k2) =
        none := by
      simp [CacheManager.clear, getItem_removeAllWithPrefix, startsWith_append]
    have hs : (CacheManager.clear st none).sessionStorage.getItem
        (CacheManager.PREFIX ++ k2 ++ "_backup") = none := by
      simp [CacheManager.clear, getItem_removeAllWithPrefix, startsWith_append_append]
    have hm : ((CacheManager.clear st none).cache k2).isNonEmptyArray = false :=
      isNonEmptyArray_initialCache k2
    simp [CacheManager.get, CacheManager.getTry, hm, CacheManager.getLocal, hl,
      CacheManager.getSession, hs]
  · intro sk hsk
    simp [CacheManager.clear, getItem_removeAllWithPrefix, hsk]

/-- C9 (code defect). The documentation of `clear` gives its parameter as `string|null`, "chave
específica ou null para limpar tudo". Two string keys are not cleared as a specific key.
The call `clear("")` takes the clear-all branch: on a page that holds `pagcorp` in the three
tiers it removes the `pagcorp` entries, which `clear("fornecedores")` leaves in place. And
after `set("__proto__", ["p"])` the call `clear("__proto__")` removes the two storage entries
but not the memory value: the assignment made the array the prototype of `AppState.cache`,
`delete` finds no own property to remove, and `get("__proto__")` still returns the array
instead of `null`. -/
theorem C9_clear_string_keys_not_cleared :
    (CacheManager.get refPlatform twoKeyPage "pagcorp").1 = .arr [.str "p"] ∧
    (CacheManager.clear twoKeyPage (some "")).cache "pagcorp" = .arr [] ∧
    twoKeyPage.localStorage.getItem (CacheManager.PREFIX ++ "pagcorp") = some "[1]" ∧
    (CacheManager.clear twoKeyPage (some "")).localStorage.getItem
      (CacheManager.PREFIX ++ "pagcorp") = none ∧
    twoKeyPage.sessionStorage.getItem (CacheManager.PREFIX ++ "pagcorp" ++ "_backup") =
      some "[1]" ∧
    (CacheManager.clear twoKeyPage (some "")).sessionStorage.getItem
      (CacheManager.PREFIX ++ "pagcorp" ++ "_backup") = none ∧
    (CacheManager.get refPlatform (CacheManager.clear twoKeyPage (some "")) "pagcorp").1 =
      .null ∧
    (CacheManager.get refPlatform (CacheManager.clear twoKeyPage (some "fornecedores"))
      "pagcorp").1 = .arr [.str "p"] ∧
    (CacheManager.clear twoKeyPage (some "fornecedores")).localStorage.getItem
      (CacheManager.PREFIX ++ "pagcorp") = some "[1]" ∧
    (CacheManager.get refPlatform protoKeyPage "__proto__").1 = .arr [.str "p"] ∧
    (CacheManager.clear protoKeyPage (some "__proto__")).localStorage.getItem
      (CacheManager.PREFIX ++ "__proto__") = none ∧
    (CacheManager.clear protoKeyPage (some "__proto__")).sessionStorage.getItem
      (CacheManager.PREFIX ++ "__proto__" ++ "_backup") = none ∧
    (CacheManager.clear protoKeyPage (some "__proto__")).cache "__proto__" =
      .arr [.str "p"] ∧
    (CacheManager.get refPlatform (CacheManager.clear protoKeyPage (some "__proto__"))
      "__proto__").1 = .arr [.str "p"] := by
  refine ⟨by rfl, by rfl, by rfl, by rfl, by rfl, by rfl, by rfl, by rfl, by rfl,
    by with_unfolding_all rfl, by with_unfolding_all rfl, by with_unfolding_all rfl,
    by with_unfolding_all rfl, by with_unfolding_all rfl⟩

/-! ## Drain pass: accounting facts -/

theorem countAttempt_delivered (r : Except JSError Bool) (c : Counts) :
    countAttempt r c =
      if delivered r then ⟨c.successCount + 1, c.errorCount⟩
      else ⟨c.successCount, c.errorCount + 1⟩ := by
  cases r with
  | error e => rfl
  | ok b => cases b <;> rfl

theorem drainLoop_counts (attempt : Nat → JSValue → Except JSError Bool) (q : List JSValue)
    (i : Nat) (c : Counts) :
    drainLoop attempt q i c =
      ⟨c.successCount + deliveredFrom attempt q i, c.errorCount + failedFrom attempt q i⟩ := by
  induction q generalizing i c with
  | nil => simp [drainLoop, deliveredFrom, failedFrom]
  | cons item rest ih =>
    rw [drainLoop, ih, countAttempt_delivered]
    unfold deliveredFrom failedFrom
    rw [List.enumFrom_cons, List.filter_cons, List.filter_cons]
    cases delivered (attempt i item) <;> simp <;> omega

theorem deliveredFrom_add_failedFrom (attempt : Nat → JSValue → Except JSError Bool)
    (q : List JSValue) (i : Nat) :
    deliveredFrom attempt q i + failedFrom attempt q i = q.length := by
  induction q generalizing i with
  | nil => simp [deliveredFrom, failedFrom]
  | cons item rest ih =>
    have h := ih (i + 1)
    unfold deliveredFrom failedFrom at h ⊢
    rw [List.enumFrom_cons, List.filter_cons, List.filter_cons]
    cases delivered (attempt i item) <;> simp <;> omega

/-- C2 (counterexample). A pass over an empty mirror has no failed attempt, yet it posts no
clear instruction to the client and shows no notification. -/
theorem C2_counterexample :
    acceptingEnv.clients = [1] ∧
    failedAttempts (attemptPedido acceptingEnv) (getDatabaseQueue idleWorker) = 0 ∧
    (processDatabaseQueueBackground acceptingEnv idleWorker).2.posted = [] ∧
    (processDatabaseQueueBackground acceptingEnv idleWorker).2.notifications = [] ∧
    failedAttempts (attemptAfericao acceptingEnv) (getTemperaturaQueue idleWorker) = 0 ∧
    (processTemperaturaQueueBackground acceptingEnv idleWorker).2.posted = [] ∧
    (processTemperaturaQueueBackground acceptingEnv idleWorker).2.notifications = [] := by
  refine ⟨by rfl, by rfl, by rfl, by rfl, by rfl, by rfl, by rfl⟩

/-- C2 (amended). A drain pass over a mirror of N ≥ 1 items of which K attempts fail: if K = 0
the clear instruction of the queue kind is posted to every window client, the mirror becomes
empty and exactly one notification is shown, whose body starts with the count N; if K > 0
nothing is posted, the worker state (the mirror with its N items in order) is unchanged and
no notification is shown. A pass over an empty mirror posts and shows nothing. -/
theorem C2_drain_pass_outcome (env : Env) (w : Worker) (q : List JSValue) (hq : q ≠ []) :
    (w.databaseQueueData = some q →
      (failedAttempts (attemptPedido env) q = 0 →
        processDatabaseQueueBackground env w =
          ({ w with databaseQueueData := some [] },
            ⟨env.clients.map (fun c => (c, ClientMessage.CLEAR_DATABASE_QUEUE)),
              [pedidosEnviados q.length]⟩) ∧
        (pedidosEnviados q.length).body =
          toString q.length ++ " pedido(s) foram enviados automaticamente!") ∧
      (0 < failedAttempts (attemptPedido env) q →
        processDatabaseQueueBackground env w = (w, ⟨[], []⟩))) ∧
    (w.temperaturaQueueData = some q →
      (failedAttempts (attemptAfericao env) q = 0 →
        processTemperaturaQueueBackground env w =
          ({ w with temperaturaQueueData := some [] },
            ⟨env.clients.map (fun c => (c, ClientMessage.CLEAR_TEMPERATURA_QUEUE)),
              [afericoesEnviadas q.length]⟩) ∧
        (afericoesEnviadas q.length).body =
          toString q.length ++
            " aferição(ões) de temperatura foram enviadas automaticamente!") ∧
      (0 < failedAttempts (attemptAfericao env) q →
        processTemperaturaQueueBackground env w = (w, ⟨[], []⟩))) ∧
    (getDatabaseQueue w = [] → processDatabaseQueueBackground env w = (w, ⟨[], []⟩)) ∧
    (getTemperaturaQueue w = [] →
      processTemperaturaQueueBackground env w = (w, ⟨[], []⟩)) := by
  have hlen : q.length ≠ 0 := fun h => hq (List.length_eq_zero.mp h)
  have hpos : 0 < q.length := Nat.pos_of_ne_zero hlen
  refine ⟨?_, ?_, ?_, ?_⟩
  rotate_left 2
  · intro h
    simp [processDatabaseQueueBackground, h]
  · intro h
    simp [processTemperaturaQueueBackground, h]
  · intro hw
    have hsum := deliveredFrom_add_failedFrom (attemptPedido env) q 0
    refine ⟨?_, ?_⟩
    · intro hk
      unfold failedAttempts at hk
      have hd : deliveredFrom (attemptPedido env) q 0 = q.length := by omega
      refine ⟨?_, rfl⟩
      simp [processDatabaseQueueBackground, getDatabaseQueue, hw, hlen, drainLoop_counts, hk,
        hd, hpos, clearDatabaseQueue, hq]
    · intro hk
      unfold failedAttempts at hk
      have hk2 : failedFrom (attemptPedido env) q 0 ≠ 0 := Nat.pos_iff_ne_zero.mp hk
      simp [processDatabaseQueueBackground, getDatabaseQueue, hw, hlen, drainLoop_counts, hk2,
        hq]
  · intro hw
    have hsum := deliveredFrom_add_failedFrom (attemptAfericao env) q 0
    refine ⟨?_, ?_⟩
    · intro hk
      unfold failedAttempts at hk
      have hd : deliveredFrom (attemptAfericao env) q 0 = q.length := by omega
      refine ⟨?_, rfl⟩
      simp [processTemperaturaQueueBackground, getTemperaturaQueue, hw, hlen, drainLoop_counts,
        hk, hd, hpos, clearTemperaturaQueue, hq]
    · intro hk
      unfold failedAttempts at hk
      have hk2 : failedFrom (attemptAfericao env) q 0 ≠ 0 := Nat.pos_iff_ne_zero.mp hk
      simp [processTemperaturaQueueBackground, getTemperaturaQueue, hw, hlen, drainLoop_counts,
        hk2, hq]

/-- C2 (amended) at concrete inputs: two orders all accepted, and two orders of which the
second is refused. -/
theorem C2_drain_pass_outcome_witness :
    sampleOrders ≠ [] ∧
    processDatabaseQueueBackground acceptingEnv loadedWorker =
      ({ loadedWorker with databaseQueueData := some [] },
        ⟨[(1, ClientMessage.CLEAR_DATABASE_QUEUE)], [pedidosEnviados 2]⟩) ∧
    processDatabaseQueueBackground rejectingEnv loadedWorker = (loadedWorker, ⟨[], []⟩) :=
  have hq : sampleOrders ≠ [] := by simp [sampleOrders]
  ⟨hq,
    (((C2_drain_pass_outcome acceptingEnv loadedWorker sampleOrders hq).1 (by rfl)).1
      (by rfl)).1,
    ((C2_drain_pass_outcome rejectingEnv loadedWorker sampleOrders hq).1 (by rfl)).2
      (by decide)⟩

/-! ## Text facts: `trim` and `parseFloat` -/

theorem trimChars_eq_rdropWhile (cs : List Char) :
    trimChars cs = (cs.dropWhile isWhiteSpace).rdropWhile isWhiteSpace := rfl

theorem dropWhile_eq_nil_of_trimChars_eq_nil (cs : List Char) (h : trimChars cs = []) :
    cs.dropWhile isWhiteSpace = [] := by
  unfold trimChars at h
  rw [List.reverse_eq_nil_iff, List.dropWhile_eq_nil_iff] at h
  by_contra hne
  have hhead := List.head_dropWhile_not isWhiteSpace cs hne
  have hmem : (cs.dropWhile isWhiteSpace).head hne ∈ (cs.dropWhile isWhiteSpace).reverse :=
    List.mem_reverse.mpr (List.head_mem hne)
  rw [h _ hmem] at hhead
  exact Bool.noConfusion hhead

theorem dropWhile_trimChars (cs : List Char) :
    (trimChars cs).dropWhile isWhiteSpace = trimChars cs := by
  rw [List.dropWhile_eq_self_iff]
  intro hl
  have hne : trimChars cs ≠ [] := List.ne_nil_of_length_pos hl
  have hpre : trimChars cs <+: cs.dropWhile isWhiteSpace := by
    rw [trimChars_eq_rdropWhile]
    exact List.rdropWhile_prefix _ _
  have hd : cs.dropWhile isWhiteSpace ≠ [] := by
    intro h0
    rw [h0] at hpre
    exact hne (List.prefix_nil.mp hpre)
  have hhead := List.head_dropWhile_not isWhiteSpace cs hd
  have key : ∀ (a b : List Char) (ha : 0 < a.length) (hb : b ≠ []), a <+: b →
      a.get ⟨0, ha⟩ = b.head hb := by
    rintro a b ha hb ⟨t, ht⟩
    subst ht
    cases a with
    | nil => simp at ha
    | cons x l => rfl
  rw [key _ _ hl hd hpre, hhead]
  exact Bool.false_ne_true

theorem trimChars_idem (cs : List Char) : trimChars (trimChars cs) = trimChars cs := by
  rw [trimChars_eq_rdropWhile (trimChars cs), dropWhile_trimChars, trimChars_eq_rdropWhile,
    List.rdropWhile_idempotent]

theorem trim_idem (s : String) : trim (trim s) = trim s := by
  unfold trim
  show String.mk (trimChars (String.mk (trimChars s.toList)).toList) = _
  rw [show (String.mk (trimChars s.toList)).toList = trimChars s.toList from rfl, trimChars_idem]

theorem trim_empty : trim "" = "" := by decide

theorem trim_eq_empty_iff (s : String) : trim s = "" ↔ trimChars s.toList = [] := by
  unfold trim
  constructor
  · intro h
    exact congrArg String.data h
  · intro h
    rw [h]

theorem parseFloat_of_blank (text : String) (h : trim text = "") : parseFloat text = .nan := by
  have hd := dropWhile_eq_nil_of_trimChars_eq_nil _ ((trim_eq_empty_iff text).mp h)
  have hs : scanFloat text = .notANumber := by
    unfold scanFloat
    simp only [hd]
    decide
  rw [parseFloat, hs]
  rfl

theorem orZero_of_ne_nan (x : JSNum) (h : x ≠ .nan) : x.orZero = x := by
  unfold JSNum.orZero
  cases x with
  | nan => exact absurd rfl h
  | inf s => rfl
  | fin q =>
    by_cases hq : q = 0
    · subst hq
      simp [JSNum.truthy]
    · simp [JSNum.truthy, hq]

theorem matchesName_trim (label : String) (h : trim label ≠ "") (f : SupplierRecord) :
    SupplierManager.matchesName (trim label) f = nameEqualsLabel label f := by
  unfold SupplierManager.matchesName nameEqualsLabel
  cases hf : f.FORNECEDOR with
  | none => rfl
  | some n =>
    simp only [trim_idem]
    by_cases hn : n = ""
    · subst hn
      have : (trim "" == trim label) = false := by
        rw [trim_empty]
        simpa using fun hh => h hh.symm
      simp [this]
    · simp [hn]

theorem sample_parseFloat_price : parseFloat "12.50" = .fin (25 / 2) := by
  simp [parseFloat, (by decide : scanFloat "12.50" = .decimal false ⟨1250, 2, 0, []⟩),
    FloatLit.value, Scan.value]
  norm_num

/-- C3 (counterexample). The selection is not custom, the selected option has an empty label
and the cache holds a record whose trimmed `FORNECEDOR` equals that trimmed label, with
`FECHAMENTO` `SIM`: the claim gives `SIM`, `getFechamento` returns the empty string. -/
theorem C3_counterexample :
    closureStatusClaimed blankLabelDocument namelessCache "almoco" = "SIM" ∧
    SupplierManager.getFechamento blankLabelDocument namelessCache "almoco" = "" := by
  constructor <;> decide

/-- C3 (amended). The method `getFechamento` returns the `FECHAMENTO` of the cached record exactly
when the selection is not custom, the label text of the selected option is not blank, a
record whose trimmed `FORNECEDOR` equals the trimmed label exists (the first such record is
taken) and its `FECHAMENTO` is a non-empty string; in every other case it returns the empty
string. A custom selection gives the empty string whatever the cache holds. -/
theorem C3_getFechamento_closure_status (doc : Document)
    (fornecedores : List SupplierRecord) (mealType : String) :
    SupplierManager.getFechamento doc fornecedores mealType =
      closureStatusAmended doc fornecedores mealType ∧
    (∀ select, doc.querySelector (SupplierManager.selectorFor mealType) = some select →
      select.value = "__custom__" →
      SupplierManager.getFechamento doc fornecedores mealType = "") := by
  constructor
  · unfold SupplierManager.getFechamento SupplierManager.getInfo closureStatusAmended
      SupplierManager.getName
    cases hsel : doc.querySelector (SupplierManager.selectorFor mealType) with
    | none => rfl
    | some select =>
      by_cases hc : select.value = "__custom__"
      · simp [hc]
      · cases hopt : select.selectedOption with
        | none => simp [hc, hopt, SupplierManager.getFromCache]
        | some option =>
          by_cases hb : trim option.text = ""
          · simp [hc, hopt, SupplierManager.trimOrNull, hb, SupplierManager.getFromCache]
          · have hfun : SupplierManager.matchesName (trim option.text) =
                nameEqualsLabel option.text := funext (matchesName_trim option.text hb)
            simp only [hc, hopt, SupplierManager.trimOrNull, hb, SupplierManager.getFromCache,
              hfun, if_false, decide_False, Bool.false_eq_true]
            cases List.find? (nameEqualsLabel option.text) fornecedores with
            | none => rfl
            | some record =>
              cases hfe : record.FECHAMENTO with
              | none => simp [hfe]
              | some c =>
                by_cases hce : c = ""
                · simp [hfe, hce]
                · simp [hfe, hce]
  · intro select hsel hc
    simp [SupplierManager.getFechamento, SupplierManager.getInfo, hsel, hc]

/-- C3 (amended) at concrete inputs: `Restaurante Bom` chosen from the list has closure `SIM`;
the same name typed as a custom supplier has none. -/
theorem C3_getFechamento_closure_status_witness :
    SupplierManager.getFechamento (sampleDocument 0 "") sampleCache "almoco" = "SIM" ∧
    (sampleDocument 1 "").querySelector (SupplierManager.selectorFor "almoco") =
      some { options := [⟨"rb", " Restaurante Bom "⟩, ⟨"__custom__", "Outro"⟩]
             selectedIndex := some 1 } ∧
    SupplierManager.getName (sampleDocument 1 "") "almoco" = some "Restaurante Bom" ∧
    SupplierManager.getFechamento (sampleDocument 1 "") sampleCache "almoco" = "" :=
  ⟨(C3_getFechamento_closure_status (sampleDocument 0 "") sampleCache "almoco").1.trans
      (by decide),
    by rfl, by decide,
    (C3_getFechamento_closure_status (sampleDocument 1 "") sampleCache "almoco").2 _
      (by rfl) (by decide)⟩

/-- C5. Precedence in `getPrice`: a price text that reads as a number gives that number whatever
the cached `VALOR` is; without an override (input missing, empty or white space only) a
non-custom selection that resolves to a cached record with a non-zero numeric `VALOR` gives
that `VALOR`; without an override and without a cached `VALOR` the result is 0. -/
theorem C5_getPrice_precedence (doc : Document) (fornecedores : List SupplierRecord)
    (mealType : String) :
    (∀ priceInput x, doc.getElementById ("price-" ++ mealType) = some priceInput →
      parseFloat priceInput.value = x → x ≠ .nan →
      SupplierManager.getPrice doc fornecedores mealType = x) ∧
    (NoOverride doc mealType →
      (∀ info record n, SupplierManager.getInfo doc fornecedores mealType = some info →
        info.isCustom = false → info.cached = some record → record.VALOR = .num n →
        n.truthy = true → SupplierManager.getPrice doc fornecedores mealType = n) ∧
      (SupplierManager.getInfo doc fornecedores mealType = none →
        SupplierManager.getPrice doc fornecedores mealType = .fin 0) ∧
      (∀ info, SupplierManager.getInfo doc fornecedores mealType = some info →
        info.cached = none → SupplierManager.getPrice doc fornecedores mealType = .fin 0) ∧
      (∀ info record, SupplierManager.getInfo doc fornecedores mealType = some info →
        info.cached = some record → record.VALOR.truthy = false →
        SupplierManager.getPrice doc fornecedores mealType = .fin 0)) := by
  constructor
  · intro priceInput x hget hx hnan
    have hnb : trim priceInput.value ≠ "" := by
      intro hb
      rw [parseFloat_of_blank _ hb] at hx
      exact hnan hx.symm
    have hne : priceInput.value ≠ "" := by
      intro he
      rw [he, trim_empty] at hnb
      exact hnb rfl
    simp [SupplierManager.getPrice, hget, hne, hnb, hx, orZero_of_ne_nan x hnan]
  · intro hno
    have htyped : (match doc.getElementById ("price-" ++ mealType) with
        | some priceInput =>
          if priceInput.value ≠ "" ∧ trim priceInput.value ≠ "" then some priceInput.value
          else none
        | none => none) = none := by
      unfold NoOverride at hno
      cases hget : doc.getElementById ("price-" ++ mealType) with
      | none => rfl
      | some priceInput =>
        rw [hget] at hno
        simp [hno]
    refine ⟨?_, ?_, ?_, ?_⟩
    · intro info record n hinfo _ hcached hvalor htruthy
      have hn : n ≠ .nan := by
        intro h
        rw [h] at htruthy
        exact Bool.noConfusion htruthy
      simp [SupplierManager.getPrice, htyped, hinfo, hcached, hvalor, Valor.truthy, htruthy,
        Valor.parseFloat, orZero_of_ne_nan n hn]
    · intro hinfo
      simp [SupplierManager.getPrice, htyped, hinfo]
    · intro info hinfo hcached
      simp [SupplierManager.getPrice, htyped, hinfo, hcached]
    · intro info record hinfo hcached hvalor
      simp [SupplierManager.getPrice, htyped, hinfo, hcached, hvalor]

/-- C5 at the inputs of the claim: the text `12.50` with a cached price of 9 gives 12.5, an
empty text with the same cached price gives 9, and an empty text with an empty supplier
list gives 0. -/
theorem C5_getPrice_precedence_witness :
    SupplierManager.getPrice (sampleDocument 0 "12.50") sampleCache "almoco" = .fin (25 / 2) ∧
    SupplierManager.getPrice (sampleDocument 0 "") sampleCache "almoco" = .fin 9 ∧
    SupplierManager.getPrice (sampleDocument 0 "  ") sampleCache "almoco" = .fin 9 ∧
    SupplierManager.getPrice (sampleDocument 0 "") [] "almoco" = .fin 0 :=
  ⟨(C5_getPrice_precedence (sampleDocument 0 "12.50") sampleCache "almoco").1 ⟨"12.50"⟩ _
      (by rfl) sample_parseFloat_price (by simp),
    ((C5_getPrice_precedence (sampleDocument 0 "") sampleCache "almoco").2
      (show trim "" = "" by decide)).1
      _ _ (.fin 9) (by rfl) (by rfl) (by rfl) (by rfl) (by simp [JSNum.truthy]),
    ((C5_getPrice_precedence (sampleDocument 0 "  ") sampleCache "almoco").2
      (show trim "  " = "" by decide)).1
      _ _ (.fin 9) (by rfl) (by rfl) (by rfl) (by rfl) (by simp [JSNum.truthy]),
    ((C5_getPrice_precedence (sampleDocument 0 "") [] "almoco").2
      (show trim "" = "" by decide)).2.2.1
      _ (by rfl) (by rfl)⟩

/-! ## Drain pass: classification of one attempt -/

theorem delivered_eq_false_iff (r : Except JSError Bool) :
    delivered r = false ↔ (∃ e, r = .error e) ∨ r = .ok false := by
  cases r with
  | error e => simp [delivered]
  | ok b => cases b <;> simp [delivered]

theorem attemptPedido_truthy_error_iff (env : Env) (i : Nat) (item : JSValue) :
    attemptPedido env i item = .ok false ↔
      ∃ data status result err, item.getProp "data" = .ok data ∧
        env.fetch i (getServerBaseUrl env.location ++ "/api/salvar-pedido") data =
          .response status (some result) ∧
        result.getProp "error" = .ok err ∧ err.truthy = true := by
  unfold attemptPedido
  cases hd : item.getProp "data" with
  | error e => simp
  | ok data =>
    cases hf : env.fetch i (getServerBaseUrl env.location ++ "/api/salvar-pedido") data with
    | networkError => simp [hf]
    | response status json =>
      cases json with
      | none => simp [hf]
      | some result =>
        cases he : result.getProp "error" with
        | error e => simp [hf, he]
        | ok err =>
          cases ht : err.truthy with
          | true =>
            simp only [hf, he, ht, if_true, true_iff]
            exact ⟨data, status, result, err, rfl, hf, he, ht⟩
          | false =>
            cases hl : data.getProp "tipo_refeicao" <;> simp [hf, he, ht, hl]

theorem attemptAfericao_truthy_error_iff (env : Env) (i : Nat) (item : JSValue) :
    attemptAfericao env i item = .ok false ↔
      ∃ status result err,
        env.fetch i (getServerBaseUrl env.location ++ "/api/afericao-temperatura") item =
          .response status (some result) ∧
        result.getProp "error" = .ok err ∧ err.truthy = true := by
  unfold attemptAfericao
  cases hf : env.fetch i (getServerBaseUrl env.location ++ "/api/afericao-temperatura")
      item with
  | networkError => simp [hf]
  | response status json =>
    cases json with
    | none => simp [hf]
    | some result =>
      cases he : result.getProp "error" with
      | error e => simp [hf, he]
      | ok err =>
        cases ht : err.truthy with
        | true =>
          simp only [hf, he, ht, if_true, true_iff]
          exact ⟨status, result, err, rfl, he, ht⟩
        | false =>
          cases hl : item.getProp "pedido_id" <;> simp [hf, he, ht, hl]

theorem attemptPedido_status_irrelevant (env : Env)
    (fetch2 : Nat → String → JSValue → FetchOutcome)
    (h : ∀ i url body, (fetch2 i url body).withoutStatus = (env.fetch i url body).withoutStatus)
    (i : Nat) (item : JSValue) :
    attemptPedido { env with fetch := fetch2 } i item = attemptPedido env i item := by
  unfold attemptPedido
  cases hd : item.getProp "data" with
  | error e => rfl
  | ok data =>
    have hh := h i (getServerBaseUrl env.location ++ "/api/salvar-pedido") data
    simp only
    cases h1 : env.fetch i (getServerBaseUrl env.location ++ "/api/salvar-pedido") data with
    | networkError =>
      cases h2 : fetch2 i (getServerBaseUrl env.location ++ "/api/salvar-pedido") data with
      | networkError => rfl
      | response s2 j2 => simp [h1, h2, FetchOutcome.withoutStatus] at hh
    | response s1 j1 =>
      cases h2 : fetch2 i (getServerBaseUrl env.location ++ "/api/salvar-pedido") data with
      | networkError => simp [h1, h2, FetchOutcome.withoutStatus] at hh
      | response s2 j2 =>
        have hj : j2 = j1 := by simpa [h1, h2, FetchOutcome.withoutStatus] using hh
        subst hj
        cases j2 <;> rfl

theorem attemptAfericao_status_irrelevant (env : Env)
    (fetch2 : Nat → String → JSValue → FetchOutcome)
    (h : ∀ i url body, (fetch2 i url body).withoutStatus = (env.fetch i url body).withoutStatus)
    (i : Nat) (item : JSValue) :
    attemptAfericao { env with fetch := fetch2 } i item = attemptAfericao env i item := by
  unfold attemptAfericao
  have hh := h i (getServerBaseUrl env.location ++ "/api/afericao-temperatura") item
  simp only
  cases h1 : env.fetch i (getServerBaseUrl env.location ++ "/api/afericao-temperatura")
      item with
  | networkError =>
    cases h2 : fetch2 i (getServerBaseUrl env.location ++ "/api/afericao-temperatura")
        item with
    | networkError => rfl
    | response s2 j2 => simp [h1, h2, FetchOutcome.withoutStatus] at hh
  | response s1 j1 =>
    cases h2 : fetch2 i (getServerBaseUrl env.location ++ "/api/afericao-temperatura")
        item with
    | networkError => simp [h1, h2, FetchOutcome.withoutStatus] at hh
    | response s2 j2 =>
      have hj : j2 = j1 := by simpa [h1, h2, FetchOutcome.withoutStatus] using hh
      subst hj
      cases j2 <;> rfl

theorem countAttempt_success_iff (r : Except JSError Bool) (c : Counts) :
    countAttempt r c = ⟨c.successCount + 1, c.errorCount⟩ ↔ r = .ok true := by
  cases r with
  | error e => simp [countAttempt]
  | ok b => cases b <;> simp [countAttempt]

theorem countAttempt_failure_iff (r : Except JSError Bool) (c : Counts) :
    countAttempt r c = ⟨c.successCount, c.errorCount + 1⟩ ↔ r ≠ .ok true := by
  cases r with
  | error e => simp [countAttempt]
  | ok b => cases b <;> simp [countAttempt]

theorem getProp_of_not_nullish (v : JSValue) (name : String) (h : v.isNullish = false) :
    ∃ t, v.getProp name = .ok t := by
  cases v <;> simp [JSValue.isNullish] at h <;> exact ⟨_, rfl⟩

/-- Reading `result.error` from a parsed body: it throws exactly when the body is `null`. -/
theorem afterResponse_cases (result : JSValue) :
    (result.isNullish = true ∧ ∃ e, result.getProp "error" = .error e) ∨
    (result.isNullish = false ∧ ∃ err, result.getProp "error" = .ok err) := by
  cases result <;> simp [JSValue.isNullish, JSValue.getProp]

theorem attemptPedido_delivered_iff (env : Env) (i : Nat) (item data : JSValue)
    (hd : item.getProp "data" = .ok data) (hn : data.isNullish = false) :
    attemptPedido env i item = .ok true ↔
      ∃ status result err,
        env.fetch i (getServerBaseUrl env.location ++ "/api/salvar-pedido") data =
          .response status (some result) ∧
        result.getProp "error" = .ok err ∧ err.truthy = false := by
  obtain ⟨t, ht⟩ := getProp_of_not_nullish data "tipo_refeicao" hn
  unfold attemptPedido
  simp only [hd]
  cases hf : env.fetch i (getServerBaseUrl env.location ++ "/api/salvar-pedido") data with
  | networkError => simp
  | response status json =>
    cases json with
    | none => simp
    | some result =>
      cases he : result.getProp "error" with
      | error e => simp [he]
      | ok err =>
        cases hr : err.truthy with
        | true => simp [he, hr]
        | false =>
          simp [he, hr, ht]
          exact ⟨status, result, ⟨rfl, rfl⟩, err, he, hr⟩

theorem attemptPedido_failed_iff (env : Env) (i : Nat) (item data : JSValue)
    (hd : item.getProp "data" = .ok data) (hn : data.isNullish = false) :
    attemptPedido env i item ≠ .ok true ↔
      env.fetch i (getServerBaseUrl env.location ++ "/api/salvar-pedido") data =
        .networkError ∨
      (∃ status, env.fetch i (getServerBaseUrl env.location ++ "/api/salvar-pedido") data =
        .response status none) ∨
      (∃ status result,
        env.fetch i (getServerBaseUrl env.location ++ "/api/salvar-pedido") data =
          .response status (some result) ∧ result.isNullish = true) ∨
      ∃ status result err,
        env.fetch i (getServerBaseUrl env.location ++ "/api/salvar-pedido") data =
          .response status (some result) ∧
        result.getProp "error" = .ok err ∧ err.truthy = true := by
  obtain ⟨t, ht⟩ := getProp_of_not_nullish data "tipo_refeicao" hn
  unfold attemptPedido
  simp only [hd]
  cases hf : env.fetch i (getServerBaseUrl env.location ++ "/api/salvar-pedido") data with
  | networkError => simp
  | response status json =>
    cases json with
    | none => simp
    | some result =>
      rcases afterResponse_cases result with ⟨hnl, e, he⟩ | ⟨hnl, err, he⟩
      · simp [he, hnl]
        exact Or.inl ⟨status, result, ⟨rfl, rfl⟩, hnl⟩
      · cases hr : err.truthy with
        | true =>
          simp [he, hr, hnl]
          exact Or.inr ⟨status, result, ⟨rfl, rfl⟩, err, he, hr⟩
        | false => simp [he, hr, ht, hnl]

theorem attemptAfericao_delivered_iff (env : Env) (i : Nat) (item : JSValue)
    (hn : item.isNullish = false) :
    attemptAfericao env i item = .ok true ↔
      ∃ status result err,
        env.fetch i (getServerBaseUrl env.location ++ "/api/afericao-temperatura") item =
          .response status (some result) ∧
        result.getProp "error" = .ok err ∧ err.truthy = false := by
  obtain ⟨t, ht⟩ := getProp_of_not_nullish item "pedido_id" hn
  unfold attemptAfericao
  simp only
  cases hf : env.fetch i (getServerBaseUrl env.location ++ "/api/afericao-temperatura")
      item with
  | networkError => simp
  | response status json =>
    cases json with
    | none => simp
    | some result =>
      cases he : result.getProp "error" with
      | error e => simp [he]
      | ok err =>
        cases hr : err.truthy with
        | true => simp [he, hr]
        | false =>
          simp [he, hr, ht]
          exact ⟨status, result, ⟨rfl, rfl⟩, err, he, hr⟩

theorem attemptAfericao_failed_iff (env : Env) (i : Nat) (item : JSValue)
    (hn : item.isNullish = false) :
    attemptAfericao env i item ≠ .ok true ↔
      env.fetch i (getServerBaseUrl env.location ++ "/api/afericao-temperatura") item =
        .networkError ∨
      (∃ status,
        env.fetch i (getServerBaseUrl env.location ++ "/api/afericao-temperatura") item =
          .response status none) ∨
      (∃ status result,
        env.fetch i (getServerBaseUrl env.location ++ "/api/afericao-temperatura") item =
          .response status (some result) ∧ result.isNullish = true) ∨
      ∃ status result err,
        env.fetch i (getServerBaseUrl env.location ++ "/api/afericao-temperatura") item =
          .response status (some result) ∧
        result.getProp "error" = .ok err ∧ err.truthy = true := by
  obtain ⟨t, ht⟩ := getProp_of_not_nullish item "pedido_id" hn
  unfold attemptAfericao
  simp only
  cases hf : env.fetch i (getServerBaseUrl env.location ++ "/api/afericao-temperatura")
      item with
  | networkError => simp
  | response status json =>
    cases json with
    | none => simp
    | some result =>
      rcases afterResponse_cases result with ⟨hnl, e, he⟩ | ⟨hnl, err, he⟩
      · simp [he, hnl]
        exact Or.inl ⟨status, result, ⟨rfl, rfl⟩, hnl⟩
      · cases hr : err.truthy with
        | true =>
          simp [he, hr, hnl]
          exact Or.inr ⟨status, result, ⟨rfl, rfl⟩, err, he, hr⟩
        | false => simp [he, hr, ht, hnl]

/-- C10 (counterexample). An order item whose `data` is `null` is sent, the backend answers with
status 200 and a JSON body without an `error` field, so the attempt met neither a network
error nor an unparseable body nor a truthy `error`; the success branch then throws a
TypeError reading `item.data.tipo_refeicao` before `successCount++`, the item is counted as
a failure and the pass keeps the queue. The temperature pass does the same with an item
that is `null`, reading `item.pedido_id`. A well-formed order answered by the JSON body
`null` is counted as a failure as well: reading `result.error` throws. -/
theorem C10_counterexample :
    nullDataOrder.getProp "data" = .ok .null ∧
    confirmingEnv.fetch 0 (getServerBaseUrl confirmingEnv.location ++ "/api/salvar-pedido")
      .null = .response 200 (some (.obj [("success", .bool true)])) ∧
    (JSValue.obj [("success", .bool true)]).getProp "error" = .ok .undefined ∧
    JSValue.undefined.truthy = false ∧
    attemptPedido confirmingEnv 0 nullDataOrder = .error .typeError ∧
    drainLoop (attemptPedido confirmingEnv) [nullDataOrder] 0 ⟨0, 0⟩ = ⟨0, 1⟩ ∧
    (processDatabaseQueueBackground confirmingEnv
      ⟨some [nullDataOrder], some [], .null⟩).1.databaseQueueData = some [nullDataOrder] ∧
    (processDatabaseQueueBackground confirmingEnv
      ⟨some [nullDataOrder], some [], .null⟩).2.posted = [] ∧
    drainLoop (attemptPedido confirmingEnv) [sampleOrder] 0 ⟨0, 0⟩ = ⟨1, 0⟩ ∧
    confirmingEnv.fetch 0
      (getServerBaseUrl confirmingEnv.location ++ "/api/afericao-temperatura") .null =
      .response 200 (some (.obj [("success", .bool true)])) ∧
    attemptAfericao confirmingEnv 0 .null = .error .typeError ∧
    drainLoop (attemptAfericao confirmingEnv) [.null] 0 ⟨0, 0⟩ = ⟨0, 1⟩ ∧
    drainLoop (attemptAfericao confirmingEnv) [sampleReading] 0 ⟨0, 0⟩ = ⟨1, 0⟩ ∧
    nullBodyEnv.fetch 0 (getServerBaseUrl nullBodyEnv.location ++ "/api/salvar-pedido")
      (.obj [("tipo_refeicao", .str "almoco")]) = .response 200 (some .null) ∧
    attemptPedido nullBodyEnv 0 sampleOrder = .error .typeError ∧
    drainLoop (attemptPedido nullBodyEnv) [sampleOrder] 0 ⟨0, 0⟩ = ⟨0, 1⟩ := by
  refine ⟨by rfl, by rfl, by rfl, by rfl, by rfl, by rfl, by rfl, by rfl, by rfl, by rfl,
    by rfl, by rfl, by rfl, by rfl, by rfl, by rfl⟩

/-- C10 (amended). In a drain pass every item adds one to exactly one of the two counters, and
at the end `successCount + errorCount` is the number of items of the snapshot. An order
whose `data` is neither `null` nor `undefined` is counted as a success if and only if the
request resolves, the body parses as JSON, and the parsed value is not `null` and has no
truthy `error` field; it is counted as a failure if and only if the request rejects, the
body does not parse, the body parses to `null`, or the parsed value has a truthy `error`
field. The same holds for a temperature reading that is neither `null` nor `undefined`. The
HTTP status plays no role: two networks that differ only in the statuses of their responses
give the same counters for every snapshot. -/
theorem C10_item_accounting (env : Env) (q : List JSValue) :
    (∀ r c, (countAttempt r c = ⟨c.successCount + 1, c.errorCount⟩ ∧
        countAttempt r c ≠ ⟨c.successCount, c.errorCount + 1⟩) ∨
      (countAttempt r c = ⟨c.successCount, c.errorCount + 1⟩ ∧
        countAttempt r c ≠ ⟨c.successCount + 1, c.errorCount⟩)) ∧
    (∀ i item data c, item.getProp "data" = .ok data → data.isNullish = false →
      (countAttempt (attemptPedido env i item) c = ⟨c.successCount + 1, c.errorCount⟩ ↔
        ∃ status result err,
          env.fetch i (getServerBaseUrl env.location ++ "/api/salvar-pedido") data =
            .response status (some result) ∧
          result.getProp "error" = .ok err ∧ err.truthy = false) ∧
      (countAttempt (attemptPedido env i item) c = ⟨c.successCount, c.errorCount + 1⟩ ↔
        env.fetch i (getServerBaseUrl env.location ++ "/api/salvar-pedido") data =
          .networkError ∨
        (∃ status, env.fetch i (getServerBaseUrl env.location ++ "/api/salvar-pedido") data =
          .response status none) ∨
        (∃ status result,
          env.fetch i (getServerBaseUrl env.location ++ "/api/salvar-pedido") data =
            .response status (some result) ∧ result.isNullish = true) ∨
        ∃ status result err,
          env.fetch i (getServerBaseUrl env.location ++ "/api/salvar-pedido") data =
            .response status (some result) ∧
          result.getProp "error" = .ok err ∧ err.truthy = true)) ∧
    (∀ i item c, item.isNullish = false →
      (countAttempt (attemptAfericao env i item) c = ⟨c.successCount + 1, c.errorCount⟩ ↔
        ∃ status result err,
          env.fetch i (getServerBaseUrl env.location ++ "/api/afericao-temperatura") item =
            .response status (some result) ∧
          result.getProp "error" = .ok err ∧ err.truthy = false) ∧
      (countAttempt (attemptAfericao env i item) c = ⟨c.successCount, c.errorCount + 1⟩ ↔
        env.fetch i (getServerBaseUrl env.location ++ "/api/afericao-temperatura") item =
          .networkError ∨
        (∃ status,
          env.fetch i (getServerBaseUrl env.location ++ "/api/afericao-temperatura") item =
            .response status none) ∨
        (∃ status result,
          env.fetch i (getServerBaseUrl env.location ++ "/api/afericao-temperatura") item =
            .response status (some result) ∧ result.isNullish = true) ∨
        ∃ status result err,
          env.fetch i (getServerBaseUrl env.location ++ "/api/afericao-temperatura") item =
            .response status (some result) ∧
          result.getProp "error" = .ok err ∧ err.truthy = true)) ∧
    (∀ fetch2 : Nat → String → JSValue → FetchOutcome,
      (∀ i url body,
        (fetch2 i url body).withoutStatus = (env.fetch i url body).withoutStatus) →
      drainLoop (attemptPedido { env with fetch := fetch2 }) q 0 ⟨0, 0⟩ =
        drainLoop (attemptPedido env) q 0 ⟨0, 0⟩ ∧
      drainLoop (attemptAfericao { env with fetch := fetch2 }) q 0 ⟨0, 0⟩ =
        drainLoop (attemptAfericao env) q 0 ⟨0, 0⟩) ∧
    (drainLoop (attemptPedido env) q 0 ⟨0, 0⟩).successCount +
      (drainLoop (attemptPedido env) q 0 ⟨0, 0⟩).errorCount = q.length ∧
    (drainLoop (attemptAfericao env) q 0 ⟨0, 0⟩).successCount +
      (drainLoop (attemptAfericao env) q 0 ⟨0, 0⟩).errorCount = q.length := by
  refine ⟨?_, ?_, ?_, ?_, ?_, ?_⟩
  · intro r c
    cases r with
    | error e => simp [countAttempt]
    | ok b => cases b <;> simp [countAttempt]
  · intro i item data c hd hn
    rw [countAttempt_success_iff, countAttempt_failure_iff]
    exact ⟨attemptPedido_delivered_iff env i item data hd hn,
      attemptPedido_failed_iff env i item data hd hn⟩
  · intro i item c hn
    rw [countAttempt_success_iff, countAttempt_failure_iff]
    exact ⟨attemptAfericao_delivered_iff env i item hn,
      attemptAfericao_failed_iff env i item hn⟩
  · intro fetch2 h
    have h1 : attemptPedido { env with fetch := fetch2 } = attemptPedido env :=
      funext fun i => funext fun item => attemptPedido_status_irrelevant env fetch2 h i item
    have h2 : attemptAfericao { env with fetch := fetch2 } = attemptAfericao env :=
      funext fun i => funext fun item => attemptAfericao_status_irrelevant env fetch2 h i item
    rw [h1, h2]
    exact ⟨rfl, rfl⟩
  · have := deliveredFrom_add_failedFrom (attemptPedido env) q 0
    simp [drainLoop_counts]
    omega
  · have := deliveredFrom_add_failedFrom (attemptAfericao env) q 0
    simp [drainLoop_counts]
    omega

/-- C10 (amended) at concrete inputs: an order accepted with HTTP status 500 is counted as a
success; an order answered with status 200 and a truthy `error` is counted as a failure; a
temperature reading accepted with status 500 is counted as a success; and over two orders
the counters add up to two. -/
theorem C10_item_accounting_witness :
    sampleOrder.getProp "data" = .ok (.obj [("tipo_refeicao", .str "almoco")]) ∧
    countAttempt (attemptPedido acceptingEnv 0 sampleOrder) ⟨0, 0⟩ = ⟨1, 0⟩ ∧
    countAttempt (attemptPedido rejectingEnv 1 sampleOrder) ⟨1, 0⟩ = ⟨1, 1⟩ ∧
    countAttempt (attemptAfericao acceptingEnv 0 sampleReading) ⟨0, 0⟩ = ⟨1, 0⟩ ∧
    (drainLoop (attemptPedido rejectingEnv) sampleOrders 0 ⟨0, 0⟩).successCount +
      (drainLoop (attemptPedido rejectingEnv) sampleOrders 0 ⟨0, 0⟩).errorCount =
      sampleOrders.length :=
  ⟨by rfl,
    ((C10_item_accounting acceptingEnv sampleOrders).2.1 0 sampleOrder
      (.obj [("tipo_refeicao", .str "almoco")]) ⟨0, 0⟩ (by rfl) (by rfl)).1.mpr
      ⟨500, .obj [("ok", .bool true)], .undefined, by rfl, by rfl, by rfl⟩,
    ((C10_item_accounting rejectingEnv sampleOrders).2.1 1 sampleOrder
      (.obj [("tipo_refeicao", .str "almoco")]) ⟨1, 0⟩ (by rfl) (by rfl)).2.mpr
      (Or.inr (Or.inr (Or.inr ⟨200, .obj [("error", .bool true), ("message", .str "recusado")],
        .bool true, by rfl, by rfl, by rfl⟩))),
    ((C10_item_accounting acceptingEnv sampleReadings).2.2.1 0 sampleReading ⟨0, 0⟩
      (by rfl)).1.mpr ⟨500, .obj [("ok", .bool true)], .undefined, by rfl, by rfl, by rfl⟩,
    (C10_item_accounting rejectingEnv sampleOrders).2.2.2.2.1⟩

/-! ## Message handler and login channel -/

/-- C11 (code defect). The handler replaces a mirror on `UPDATE_DATABASE_QUEUE` and on
`UPDATE_TEMPERATURA_QUEUE`, leaving the other mirror and the login payload as they were, and
empties the temperature mirror on `CLEAR_TEMPERATURA_QUEUE`; it has no branch for
`CLEAR_DATABASE_QUEUE`, so that message leaves the order mirror as it was: a mirror of two
orders still holds them afterwards. -/
theorem C11_clear_database_message_keeps_mirror (w : Worker) (q : Option (List JSValue))
    (data : JSValue) (ports : List Nat) :
    onMessage w ⟨"UPDATE_DATABASE_QUEUE", q, data, ports⟩ =
      .ok ⟨{ w with databaseQueueData := q }, [], none⟩ ∧
    onMessage w ⟨"UPDATE_TEMPERATURA_QUEUE", q, data, ports⟩ =
      .ok ⟨{ w with temperaturaQueueData := q }, [], none⟩ ∧
    onMessage w ⟨"CLEAR_TEMPERATURA_QUEUE", q, data, ports⟩ =
      .ok ⟨{ w with temperaturaQueueData := some [] }, [], none⟩ ∧
    onMessage w ⟨"CLEAR_DATABASE_QUEUE", q, data, ports⟩ = .ok ⟨w, [], none⟩ ∧
    (ServiceWorker.step acceptingEnv ⟨loadedWorker, []⟩
      (.message ⟨"CLEAR_DATABASE_QUEUE", none, .undefined, []⟩)).1.worker.databaseQueueData =
      some sampleOrders ∧
    (ServiceWorker.step acceptingEnv ⟨loadedWorker, []⟩
      (.message ⟨"CLEAR_TEMPERATURA_QUEUE", none, .undefined, []⟩)
      ).1.worker.temperaturaQueueData = some [] := by
  refine ⟨by rfl, by rfl, by rfl, by rfl, by rfl, by rfl⟩

theorem onMessage_keeps_login (w : Worker) (event : MessageEvent)
    (h : (Event.message event).keepsLogin = true) :
    ∀ r, onMessage w event = .ok r → r.worker.loginDataCache = w.loginDataCache := by
  intro r hr
  simp only [Event.keepsLogin, Bool.and_eq_true, bne_iff_ne, ne_eq] at h
  unfold onMessage at hr
  split_ifs at hr with h1 h2 h3 h4 h5 h6 h7 h8
  · cases hr; rfl
  · cases hr; rfl
  · cases hr; rfl
  · cases hr; rfl
  · cases hr; rfl
  · exact absurd h6 h.1
  · exact absurd h7 h.2
  · cases hp : event.ports with
    | nil => rw [hp] at hr; cases hr
    | cons port rest => rw [hp] at hr; cases hr; rfl
  · cases hr; rfl

theorem pass_step_keeps_login (env : Env) (p : Pass) (w : Worker) :
    (p.step env w).worker.loginDataCache = w.loginDataCache := by
  unfold Pass.step
  split
  · rfl
  · split
    · rfl
    · split
      · split <;> rfl
      · rfl

theorem step_message (env : Env) (s : ServiceWorker) (event : MessageEvent) :
    ServiceWorker.step env s (.message event) =
      match onMessage s.worker event with
      | .ok r => (⟨r.worker, s.inFlight ++ r.started⟩, ⟨[], [], r.reply.toList, []⟩)
      | .error _ => (s, Output.none) := rfl

theorem step_advance (env : Env) (s : ServiceWorker) (k : Nat) :
    ServiceWorker.step env s (.advance k) =
      match s.inFlight.get? k with
      | none => (s, Output.none)
      | some p =>
        (⟨(p.step env s.worker).worker,
            match (p.step env s.worker).pass with
            | some p2 => s.inFlight.set k p2
            | none => s.inFlight.eraseIdx k⟩,
          (p.step env s.worker).output) := rfl

theorem step_keeps_login (env : Env) (s : ServiceWorker) (ev : Event)
    (h : ev.keepsLogin = true) :
    (ServiceWorker.step env s ev).1.worker.loginDataCache = s.worker.loginDataCache := by
  cases ev with
  | message event =>
    rw [step_message]
    cases hm : onMessage s.worker event with
    | error e => rfl
    | ok r => exact onMessage_keeps_login s.worker event h r hm
  | sync tag => rfl
  | periodicsync tag => rfl
  | advance k =>
    rw [step_advance]
    cases hk : s.inFlight.get? k with
    | none => rfl
    | some p => exact pass_step_keeps_login env p s.worker

theorem run_keeps_login (env : Env) (evs : List Event) :
    ∀ s : ServiceWorker, (∀ ev ∈ evs, ev.keepsLogin = true) →
      (ServiceWorker.run env s evs).1.worker.loginDataCache = s.worker.loginDataCache := by
  induction evs with
  | nil => intro s _; rfl
  | cons ev rest ih =>
    intro s h
    rw [ServiceWorker.run]
    simp only
    rw [ih _ (fun e he => h e (List.mem_cons_of_mem _ he)),
      step_keeps_login env s ev (h ev (List.mem_cons_self _ _))]

theorem step_get_login (env : Env) (s : ServiceWorker) (q : Option (List JSValue))
    (data : JSValue) (port : Nat) (ports : List Nat) :
    ServiceWorker.step env s (.message ⟨"GET_LOGIN", q, data, port :: ports⟩) =
      (s, ⟨[], [], [(port, .LOGIN_DATA s.worker.loginDataCache)], []⟩) := by
  have h : onMessage s.worker ⟨"GET_LOGIN", q, data, port :: ports⟩ =
      .ok ⟨s.worker, [], some (port, .LOGIN_DATA s.worker.loginDataCache)⟩ := by rfl
  rw [step_message, h]
  simp

/-- C12. The login channel is a single slot. After `SAVE_LOGIN` with data `p`, whatever events
other than `SAVE_LOGIN` and `CLEAR_LOGIN` messages follow (messages of any other type, sync
events, resumptions of passes in flight), a `GET_LOGIN` with a reply port posts
`LOGIN_DATA` with data `p` to that port; after `CLEAR_LOGIN`, and from the initial worker,
it posts `LOGIN_DATA` with data `null`; and `GET_LOGIN` leaves the worker as it was. -/
theorem C12_login_single_slot (env : Env) (s : ServiceWorker) (p : JSValue)
    (evs : List Event) (q1 q2 : Option (List JSValue)) (d1 d2 : JSValue) (ports1 : List Nat)
    (port : Nat) (ports : List Nat) (hquiet : ∀ ev ∈ evs, ev.keepsLogin = true) :
    (ServiceWorker.step env
      (ServiceWorker.run env
        (ServiceWorker.step env s (.message ⟨"SAVE_LOGIN", q1, p, ports1⟩)).1 evs).1
      (.message ⟨"GET_LOGIN", q2, d2, port :: ports⟩)).2.replies =
      [(port, .LOGIN_DATA p)] ∧
    (ServiceWorker.step env
      (ServiceWorker.run env
        (ServiceWorker.step env s (.message ⟨"CLEAR_LOGIN", q1, d1, ports1⟩)).1 evs).1
      (.message ⟨"GET_LOGIN", q2, d2, port :: ports⟩)).2.replies =
      [(port, .LOGIN_DATA .null)] ∧
    (ServiceWorker.step env (ServiceWorker.run env ServiceWorker.initial evs).1
      (.message ⟨"GET_LOGIN", q2, d2, port :: ports⟩)).2.replies =
      [(port, .LOGIN_DATA .null)] ∧
    (ServiceWorker.step env s (.message ⟨"GET_LOGIN", q2, d2, port :: ports⟩)).1 = s := by
  refine ⟨?_, ?_, ?_, ?_⟩
  · rw [step_get_login, run_keeps_login env evs _ hquiet]
    rfl
  · rw [step_get_login, run_keeps_login env evs _ hquiet]
    rfl
  · rw [step_get_login, run_keeps_login env evs _ hquiet]
    rfl
  · rw [step_get_login]

/-- C12 at a concrete input: a login saved, then a queue update, a forced sync, the two passes it
started resumed once each and another `GET_LOGIN`, then the request. -/
theorem C12_login_single_slot_witness :
    (ServiceWorker.step acceptingEnv
      (ServiceWorker.run acceptingEnv
        (ServiceWorker.step acceptingEnv ServiceWorker.initial
          (.message ⟨"SAVE_LOGIN", none, sampleLogin, []⟩)).1
        [.message ⟨"UPDATE_DATABASE_QUEUE", some sampleOrders, .undefined, []⟩,
         .message ⟨"FORCE_BACKGROUND_SYNC", none, .undefined, []⟩,
         .advance 0, .advance 1, .message getLoginRequest]).1
      (.message getLoginRequest)).2.replies = [(7, .LOGIN_DATA sampleLogin)] :=
  (C12_login_single_slot acceptingEnv ServiceWorker.initial sampleLogin
    [.message ⟨"UPDATE_DATABASE_QUEUE", some sampleOrders, .undefined, []⟩,
     .message ⟨"FORCE_BACKGROUND_SYNC", none, .undefined, []⟩,
     .advance 0, .advance 1, .message getLoginRequest]
    none none .undefined .undefined [] 7 []
    (by
      intro ev hev
      simp only [List.mem_cons, List.mem_singleton, List.not_mem_nil, or_false] at hev
      rcases hev with h | h | h | h | h <;> subst h <;> rfl)).1

/-- C13 (counterexample). On the IPv6 loopback host `[::1]` the result is the origin of the worker,
not the fixed local address. -/
theorem C13_counterexample :
    getServerBaseUrl ipv6LoopbackLocation = "http://[::1]:3000" ∧
    getServerBaseUrl ipv6LoopbackLocation ≠ "http://localhost:8082" := by
  constructor <;> decide

/-- C13 (amended). The hostnames `localhost` and `127.0.0.1` give the fixed local address
`http://localhost:8082`; every other hostname gives the origin of the worker's location. -/
theorem C13_getServerBaseUrl_cases (location : Location) :
    (location.hostname = "localhost" → getServerBaseUrl location = "http://localhost:8082") ∧
    (location.hostname = "127.0.0.1" → getServerBaseUrl location = "http://localhost:8082") ∧
    (location.hostname ≠ "localhost" → location.hostname ≠ "127.0.0.1" →
      getServerBaseUrl location = location.origin) := by
  refine ⟨?_, ?_, ?_⟩
  · intro h
    simp [getServerBaseUrl, h]
  · intro h
    simp [getServerBaseUrl, h]
  · intro h1 h2
    simp [getServerBaseUrl, h1, h2]

/-- C13 (amended) at concrete inputs: a worker on `localhost` and a worker behind a tunnel. -/
theorem C13_getServerBaseUrl_cases_witness :
    getServerBaseUrl ⟨"localhost", "http://localhost:3000"⟩ = "http://localhost:8082" ∧
    getServerBaseUrl ⟨"127.0.0.1", "http://127.0.0.1:3000"⟩ = "http://localhost:8082" ∧
    getServerBaseUrl ⟨"abc.ngrok.io", "https://abc.ngrok.io"⟩ = "https://abc.ngrok.io" :=
  ⟨(C13_getServerBaseUrl_cases ⟨"localhost", "http://localhost:3000"⟩).1 (by rfl),
    (C13_getServerBaseUrl_cases ⟨"127.0.0.1", "http://127.0.0.1:3000"⟩).2.1 (by rfl),
    (C13_getServerBaseUrl_cases ⟨"abc.ngrok.io", "https://abc.ngrok.io"⟩).2.2 (by decide)
      (by decide)⟩

/-! ## Price texts and closure texts -/

theorem sample_parseFloat_prefix : parseFloat "12abc" = .fin 12 := by
  simp [parseFloat,
    (by decide : scanFloat "12abc" = .decimal false ⟨12, 0, 0, ['a', 'b', 'c']⟩),
    FloatLit.value, Scan.value]

theorem getPrice_of_typed (doc : Document) (fornecedores : List SupplierRecord)
    (mealType : String) (priceInput : InputElement)
    (hget : doc.getElementById ("price-" ++ mealType) = some priceInput)
    (hnb : trim priceInput.value ≠ "") :
    SupplierManager.getPrice doc fornecedores mealType =
      (parseFloat priceInput.value).orZero := by
  have hne : priceInput.value ≠ "" := by
    intro he
    rw [he, trim_empty] at hnb
    exact hnb rfl
  simp [SupplierManager.getPrice, hget, hne, hnb]

/-- C14 (counterexample). The price text `12abc` is not blank and is not a decimal number, yet
`getPrice` returns 12, the value of its numeric prefix, not 0. -/
theorem C14_counterexample :
    trim "12abc" ≠ "" ∧
    SupplierManager.getPrice (sampleDocument 0 "12abc") sampleCache "almoco" = .fin 12 ∧
    SupplierManager.getPrice (sampleDocument 0 "12abc") sampleCache "almoco" ≠ .fin 0 := by
  have h : SupplierManager.getPrice (sampleDocument 0 "12abc") sampleCache "almoco" =
      .fin 12 := by
    rw [getPrice_of_typed (sampleDocument 0 "12abc") sampleCache "almoco" ⟨"12abc"⟩ (by rfl)
      (by decide), sample_parseFloat_prefix]
    simp [JSNum.orZero, JSNum.truthy]
  refine ⟨by decide, h, ?_⟩
  rw [h]
  intro hh
  have h12 : (12 : Rat) = 0 := JSNum.fin.inj hh
  norm_num at h12

/-- C14 (amended). For a price text that is not blank, `getPrice` is `parseFloat(text) || 0`
whatever the cached record holds: 0 when the text, after leading white space, does not start
with a decimal number (as `abc`), and the value of the numeric prefix otherwise (12 for
`12abc`). The function is total: it does not raise. -/
theorem C14_getPrice_malformed_text (doc : Document) (fornecedores : List SupplierRecord)
    (mealType : String) (priceInput : InputElement)
    (hget : doc.getElementById ("price-" ++ mealType) = some priceInput)
    (hnb : trim priceInput.value ≠ "") :
    SupplierManager.getPrice doc fornecedores mealType =
      (parseFloat priceInput.value).orZero ∧
    (scanFloat priceInput.value = .notANumber →
      SupplierManager.getPrice doc fornecedores mealType = .fin 0) := by
  have h := getPrice_of_typed doc fornecedores mealType priceInput hget hnb
  refine ⟨h, ?_⟩
  intro hs
  rw [h, parseFloat, hs]
  rfl

/-- C14 (amended) at a concrete input: the text `abc` over a cached price of 9 gives 0. -/
theorem C14_getPrice_malformed_text_witness :
    trim "abc" ≠ "" ∧ scanFloat "abc" = .notANumber ∧
    SupplierManager.getPrice (sampleDocument 0 "abc") sampleCache "almoco" = .fin 0 :=
  ⟨by decide, by decide,
    (C14_getPrice_malformed_text (sampleDocument 0 "abc") sampleCache "almoco" ⟨"abc"⟩
      (by rfl) (by decide)).2 (by decide)⟩

/-- C15 (code defect). A supplier chosen from the list whose cached record has the closure text
`NAO` makes `getFechamento` return `NAO`, which is neither `SIM` nor the empty string. -/
theorem C15_getFechamento_returns_other_text :
    SupplierManager.getFechamento (sampleDocument 0 "") otherClosureCache "almoco" = "NAO" ∧
    SupplierManager.getFechamento (sampleDocument 0 "") otherClosureCache "almoco" ≠ "SIM" ∧
    SupplierManager.getFechamento (sampleDocument 0 "") otherClosureCache "almoco" ≠ "" := by
  refine ⟨by decide, by decide, by decide⟩

/-! ## Validity and scope -/

theorem isValid_written_entry (P : Platform) (now t0 : Int) (st : Page) (key : String)
    (text : String) (v : JSValue) (A : String)
    (hget : st.localStorage.getItem (CacheManager.PREFIX ++ key) = some text)
    (hparse : P.JSONparse text = some (CacheManager.cacheData v t0 A)) (m : Rat) :
    CacheManager.isValid P now st key (some (.fin m)) = true ↔ ((now - t0 : Int) : Rat) < m := by
  have hne := parse_ne_empty P text _ hparse
  simp [CacheManager.isValid, CacheManager.isValidTry, hget, hne, hparse,
    getProp_cacheData_timestamp, Platform.ToNumber, JSNum.sub, JSNum.lt]

/-- C17. The function `isValid` does not read the team: its result is the same under any current
`equipe` (and any memory and sessionStorage content), and for two pages whose localStorage
entries carry the same `timestamp` it is the same at equal time and `maxAge`. So an entry
written by `set` under team `A` at age below `maxAge` is valid under any team `B`, also in
a state where `get` under `B ≠ A` returns `null`. -/
theorem C17_isValid_ignores_equipe (P : Platform) (now : Int) (st : Page) (key : String) :
    (∀ maxAge B cache session,
      CacheManager.isValid P now
        { st with equipe := B, cache := cache, sessionStorage := session } key maxAge =
        CacheManager.isValid P now st key maxAge) ∧
    (∀ maxAge (st2 : Page) text text2 data data2 t,
      st.localStorage.getItem (CacheManager.PREFIX ++ key) = some text →
      st2.localStorage.getItem (CacheManager.PREFIX ++ key) = some text2 →
      P.JSONparse text = some data → P.JSONparse text2 = some data2 →
      data.getProp "timestamp" = .ok t → data2.getProp "timestamp" = .ok t →
      CacheManager.isValid P now st2 key maxAge = CacheManager.isValid P now st key maxAge) ∧
    (∀ (w : WriteOutcome) (t0 : Int) (v : JSValue) (B : String) (m : Rat),
      w.localOk = true →
      P.JSONparse (P.JSONstringify (CacheManager.cacheData v t0 st.equipe)) =
        some (CacheManager.cacheData v t0 st.equipe) →
      ((now - t0 : Int) : Rat) < m →
      CacheManager.isValid P now { CacheManager.set P w t0 st key v with equipe := B } key
        (some (.fin m)) = true) ∧
    (∀ (t0 : Int) (v : JSValue) (B : String) (m : Rat),
      P.JSONparse (P.JSONstringify (CacheManager.cacheData v t0 st.equipe)) =
        some (CacheManager.cacheData v t0 st.equipe) →
      ((now - t0 : Int) : Rat) < m → B ≠ st.equipe →
      (CacheManager.get P
        { equipe := B
          cache := initialCache
          localStorage := (CacheManager.set P ⟨true, false⟩ t0 st key v).localStorage
          sessionStorage := [] } key).1 = .null ∧
      CacheManager.isValid P now
        { equipe := B
          cache := initialCache
          localStorage := (CacheManager.set P ⟨true, false⟩ t0 st key v).localStorage
          sessionStorage := [] } key (some (.fin m)) = true) := by
  refine ⟨?_, ?_, ?_, ?_⟩
  · intro maxAge B cache session
    rfl
  · intro maxAge st2 text text2 data data2 t hget hget2 hparse hparse2 ht ht2
    have hne := parse_ne_empty P text data hparse
    have hne2 := parse_ne_empty P text2 data2 hparse2
    simp [CacheManager.isValid, CacheManager.isValidTry, hget, hget2, hne, hne2, hparse,
      hparse2, ht, ht2]
  · intro w t0 v B m hw hser hage
    have hget : ({ CacheManager.set P w t0 st key v with equipe := B } : Page).localStorage.getItem
        (CacheManager.PREFIX ++ key) =
        some (P.JSONstringify (CacheManager.cacheData v t0 st.equipe)) := by
      cases hs : w.sessionOk <;>
        simp [CacheManager.set, hw, hs, Storage.getItem_setItem_self]
    exact (isValid_written_entry P now t0 _ key _ v st.equipe hget hser m).mpr hage
  · intro t0 v B m hser hage hB
    have hget : (CacheManager.set P ⟨true, false⟩ t0 st key v).localStorage.getItem
        (CacheManager.PREFIX ++ key) =
        some (P.JSONstringify (CacheManager.cacheData v t0 st.equipe)) := by
      simp [CacheManager.set, Storage.getItem_setItem_self]
    have hne := parse_ne_empty P _ _ hser
    have hneq : (JSValue.str st.equipe).strictEqStr B = false := by
      simp only [JSValue.strictEqStr, beq_eq_false_iff_ne, ne_eq]
      exact fun h => hB h.symm
    refine ⟨?_, ?_⟩
    · have hs : Storage.getItem ([] : Storage) (CacheManager.PREFIX ++ key ++ "_backup") =
          none := rfl
      simp [CacheManager.get, CacheManager.getTry, isNonEmptyArray_initialCache,
        CacheManager.getLocal, hget, hne, hser, getProp_cacheData_equipe, hneq,
        CacheManager.getSession, hs]
    · exact (isValid_written_entry P now t0 _ key _ v st.equipe hget hser m).mpr hage

/-- C17 at a concrete input: the supplier list written under team `A` at time 1000 is valid at
time 1500 under team `B` for `maxAge` 501, while `get` under `B` returns `null`. -/
theorem C17_isValid_ignores_equipe_witness :
    "B" ≠ (freshPage "A").equipe ∧
    (CacheManager.get refPlatform
      { equipe := "B"
        cache := initialCache
        localStorage := (CacheManager.set refPlatform ⟨true, false⟩ 1000 (freshPage "A")
          "fornecedores" sampleSuppliers).localStorage
        sessionStorage := [] } "fornecedores").1 = .null ∧
    CacheManager.isValid refPlatform 1500
      { equipe := "B"
        cache := initialCache
        localStorage := (CacheManager.set refPlatform ⟨true, false⟩ 1000 (freshPage "A")
          "fornecedores" sampleSuppliers).localStorage
        sessionStorage := [] } "fornecedores" (some (.fin 501)) = true :=
  have h := (C17_isValid_ignores_equipe refPlatform 1500 (freshPage "A") "fornecedores").2.2.2
    1000 sampleSuppliers "B" 501 (by with_unfolding_all rfl) (by norm_num) (by decide)
  ⟨by decide, h.1, h.2⟩

/-! ## A pass interleaved with replace messages -/

theorem output_append_none (a : Output) : a.append Output.none = a := by
  cases a
  simp [Output.append, Output.none]

theorem output_none_append (a : Output) : Output.none.append a = a := by
  cases a
  simp [Output.append, Output.none]

theorem output_append_assoc (a b c : Output) :
    (a.append b).append c = a.append (b.append c) := by
  simp [Output.append, List.append_assoc]

theorem run_append_single (env : Env) (evs : List Event) (ev : Event) :
    ∀ s : ServiceWorker, ServiceWorker.run env s (evs ++ [ev]) =
      ((ServiceWorker.step env (ServiceWorker.run env s evs).1 ev).1,
        (ServiceWorker.run env s evs).2.append
          (ServiceWorker.step env (ServiceWorker.run env s evs).1 ev).2) := by
  induction evs with
  | nil =>
    intro s
    simp [ServiceWorker.run, output_append_none, output_none_append]
  | cons e rest ih =>
    intro s
    rw [List.cons_append, ServiceWorker.run, ServiceWorker.run, ih, output_append_assoc]

theorem step_advance_item (env : Env) (w : Worker) (p : Pass) (item : JSValue)
    (hq : p.queue ≠ []) (hitem : p.queue.get? p.position = some item) :
    ServiceWorker.step env ⟨w, [p]⟩ (.advance 0) =
      (⟨w, [{ p with
          position := p.position + 1
          counts := countAttempt (p.attempt env item) p.counts }]⟩,
        ⟨[], [], [], [(p.kind, item)]⟩) := by
  have hlen : p.queue.length ≠ 0 := fun h => hq (List.length_eq_zero.mp h)
  have hstep : p.step env w =
      ⟨some { p with
          position := p.position + 1
          counts := countAttempt (p.attempt env item) p.counts },
        w, ⟨[], [], [], [(p.kind, item)]⟩⟩ := by
    unfold Pass.step
    rw [if_neg hlen, hitem]
  rw [step_advance]
  simp [hstep]

theorem step_replace (env : Env) (w : Worker) (ps : List Pass) (event : MessageEvent)
    (h : event.type = "UPDATE_DATABASE_QUEUE") :
    ServiceWorker.step env ⟨w, ps⟩ (.message event) =
      (⟨{ w with databaseQueueData := event.queue }, ps⟩, Output.none) := by
  have hm : onMessage w event = .ok ⟨{ w with databaseQueueData := event.queue }, [], none⟩ := by
    simp [onMessage, h]
  simp [step_message, hm, Output.none]

theorem run_pass_with_replacements (env : Env) (Q : List JSValue) (hQ : Q ≠ [])
    (evs : List Event) :
    ∀ (w : Worker) (position : Nat) (counts : Counts),
      (∀ ev ∈ evs, ev.isAdvanceOrReplace = true) →
      position + evs.countP Event.isAdvance ≤ Q.length →
      ServiceWorker.run env ⟨w, [⟨.database, Q, position, counts⟩]⟩ evs =
        (⟨w.afterReplacements evs, [⟨.database, Q, position + evs.countP Event.isAdvance,
            drainLoop (attemptPedido env)
              ((Q.drop position).take (evs.countP Event.isAdvance)) position counts⟩]⟩,
          ⟨[], [], [],
            ((Q.drop position).take (evs.countP Event.isAdvance)).map
              (fun item => (QueueKind.database, item))⟩) := by
  induction evs with
  | nil =>
    intro w position counts _ _
    simp [ServiceWorker.run, drainLoop, Output.none, Worker.afterReplacements]
  | cons ev rest ih =>
    intro w position counts hall hle
    have hrest : ∀ e ∈ rest, e.isAdvanceOrReplace = true :=
      fun e he => hall e (List.mem_cons_of_mem _ he)
    have hev := hall ev (List.mem_cons_self _ _)
    cases ev with
    | sync tag => exact absurd hev (by simp [Event.isAdvanceOrReplace])
    | periodicsync tag => exact absurd hev (by simp [Event.isAdvanceOrReplace])
    | message event =>
      have ht : event.type = "UPDATE_DATABASE_QUEUE" := by
        simpa [Event.isAdvanceOrReplace] using hev
      have hc : (Event.message event :: rest).countP Event.isAdvance =
          rest.countP Event.isAdvance := by
        simp [List.countP_cons, Event.isAdvance]
      rw [hc] at hle ⊢
      have h2 := ih { w with databaseQueueData := event.queue } position counts hrest hle
      rw [ServiceWorker.run, step_replace env w _ event ht]
      simp only [h2, output_none_append, Worker.afterReplacements]
    | advance k =>
      cases k with
      | succ k => exact absurd hev (by simp [Event.isAdvanceOrReplace])
      | zero =>
        have hc : (Event.advance 0 :: rest).countP Event.isAdvance =
            rest.countP Event.isAdvance + 1 := by
          simp [List.countP_cons, Event.isAdvance]
        rw [hc] at hle ⊢
        have hpos : position < Q.length := by omega
        have hitem : (⟨.database, Q, position, counts⟩ : Pass).queue.get?
            (⟨.database, Q, position, counts⟩ : Pass).position = some Q[position] := by
          simp [List.get?_eq_getElem?, List.getElem?_eq_getElem hpos]
        have h2 := ih w (position + 1)
          (countAttempt (attemptPedido env position Q[position]) counts) hrest (by omega)
        rw [ServiceWorker.run, step_advance_item env w _ Q[position] hQ hitem]
        simp only [Pass.attempt, h2, List.drop_eq_getElem_cons hpos, List.take_succ_cons,
          drainLoop, List.map_cons, Output.append, List.nil_append, List.singleton_append,
          Worker.afterReplacements]
        have : position + 1 + rest.countP Event.isAdvance =
            position + (rest.countP Event.isAdvance + 1) := by omega
        rw [this]

theorem afterReplacements_replicate_advance (w : Worker) (n : Nat) :
    w.afterReplacements (List.replicate n (.advance 0)) = w := by
  induction n with
  | zero => rfl
  | succ n ih => simpa [List.replicate_succ, Worker.afterReplacements] using ih

theorem pass_alone_eq_processDatabaseQueueBackground (env : Env) (w : Worker) :
    (ServiceWorker.run env ⟨w, [Pass.start .database w]⟩
      (List.replicate ((getDatabaseQueue w).length + 1) (.advance 0))).1 =
      ⟨(processDatabaseQueueBackground env w).1, []⟩ ∧
    (ServiceWorker.run env ⟨w, [Pass.start .database w]⟩
      (List.replicate ((getDatabaseQueue w).length + 1) (.advance 0))).2.posted =
      (processDatabaseQueueBackground env w).2.posted ∧
    (ServiceWorker.run env ⟨w, [Pass.start .database w]⟩
      (List.replicate ((getDatabaseQueue w).length + 1) (.advance 0))).2.notifications =
      (processDatabaseQueueBackground env w).2.notifications := by
  by_cases hQ : getDatabaseQueue w = []
  · simp [hQ, ServiceWorker.run, step_advance, Pass.step, Pass.start,
      processDatabaseQueueBackground, Output.append, Output.none]
  · have hlen : (getDatabaseQueue w).length ≠ 0 := fun h => hQ (List.length_eq_zero.mp h)
    have hall : ∀ ev ∈ List.replicate (getDatabaseQueue w).length (Event.advance 0),
        ev.isAdvanceOrReplace = true := by
      intro ev hev
      rw [List.eq_of_mem_replicate hev]
      rfl
    have hcount : (List.replicate (getDatabaseQueue w).length (Event.advance 0)).countP
        Event.isAdvance = (getDatabaseQueue w).length := by
      rw [List.countP_eq_length.mpr, List.length_replicate]
      intro ev hev
      rw [List.eq_of_mem_replicate hev]
      rfl
    have h2 := run_pass_with_replacements env (getDatabaseQueue w) hQ _ w 0 ⟨0, 0⟩ hall
      (by omega)
    rw [hcount, afterReplacements_replicate_advance] at h2
    simp only [List.drop_zero, List.take_length, Nat.zero_add] at h2
    have hnone : (getDatabaseQueue w).get? (getDatabaseQueue w).length = none :=
      List.get?_eq_none.mpr (Nat.le_refl _)
    rw [List.replicate_succ', run_append_single]
    have hstart : Pass.start .database w = ⟨.database, getDatabaseQueue w, 0, ⟨0, 0⟩⟩ := rfl
    rw [hstart, h2]
    by_cases herr : (drainLoop (attemptPedido env) (getDatabaseQueue w) 0 ⟨0, 0⟩).errorCount = 0
    · simp [step_advance, Pass.step, hlen, hnone, herr, processDatabaseQueueBackground,
        Output.append]
    · simp [step_advance, Pass.step, hlen, hnone, herr, processDatabaseQueueBackground,
        Output.append, Output.none]

/-- C16. A pass over the order queue that started with the non-empty snapshot `Q`, all of whose
attempts succeed, interleaved in any way with `UPDATE_DATABASE_QUEUE` messages that replace
the mirror: the items attempted are exactly those of `Q`, in order, and right after the last
step of the pass the mirror is the empty array, the clear instruction has been posted to
every client and the notification carries the count of `Q`. -/
theorem C16_replacement_during_pass (env : Env) (w : Worker) (Q : List JSValue)
    (evs : List Event) (hQ : Q ≠ []) (hw : w.databaseQueueData = some Q)
    (hok : failedAttempts (attemptPedido env) Q = 0)
    (hevs : ∀ ev ∈ evs, ev.isAdvanceOrReplace = true)
    (hcount : evs.countP Event.isAdvance = Q.length) :
    (ServiceWorker.step env ⟨w, []⟩ (.sync "database-sync")).1 =
      ⟨w, [⟨.database, Q, 0, ⟨0, 0⟩⟩]⟩ ∧
    (ServiceWorker.run env ⟨w, [⟨.database, Q, 0, ⟨0, 0⟩⟩]⟩
      (evs ++ [.advance 0])).1.worker.databaseQueueData = some [] ∧
    (ServiceWorker.run env ⟨w, [⟨.database, Q, 0, ⟨0, 0⟩⟩]⟩
      (evs ++ [.advance 0])).1.inFlight = [] ∧
    (ServiceWorker.run env ⟨w, [⟨.database, Q, 0, ⟨0, 0⟩⟩]⟩
      (evs ++ [.advance 0])).2.attempted = Q.map (fun item => (QueueKind.database, item)) ∧
    (ServiceWorker.run env ⟨w, [⟨.database, Q, 0, ⟨0, 0⟩⟩]⟩
      (evs ++ [.advance 0])).2.posted =
      env.clients.map (fun c => (c, ClientMessage.CLEAR_DATABASE_QUEUE)) ∧
    (ServiceWorker.run env ⟨w, [⟨.database, Q, 0, ⟨0, 0⟩⟩]⟩
      (evs ++ [.advance 0])).2.notifications = [pedidosEnviados Q.length] := by
  have hlen : Q.length ≠ 0 := fun h => hQ (List.length_eq_zero.mp h)
  have h2 := run_pass_with_replacements env Q hQ evs w 0 ⟨0, 0⟩ hevs (by omega)
  rw [hcount] at h2
  simp only [List.drop_zero, List.take_length, Nat.zero_add] at h2
  have hsum := deliveredFrom_add_failedFrom (attemptPedido env) Q 0
  unfold failedAttempts at hok
  have hd : deliveredFrom (attemptPedido env) Q 0 = Q.length := by omega
  have hnone : Q.get? Q.length = none := List.get?_eq_none.mpr (Nat.le_refl _)
  have hfinal : ServiceWorker.step env
      ⟨w.afterReplacements evs,
        [⟨.database, Q, Q.length, drainLoop (attemptPedido env) Q 0 ⟨0, 0⟩⟩]⟩ (.advance 0) =
      (⟨{ w.afterReplacements evs with databaseQueueData := some [] }, []⟩,
        ⟨env.clients.map (fun c => (c, ClientMessage.CLEAR_DATABASE_QUEUE)),
          [pedidosEnviados Q.length], [], []⟩) := by
    simp [step_advance, Pass.step, hlen, hnone, drainLoop_counts, hok, hd,
      clearDatabaseQueue, Nat.pos_of_ne_zero hlen]
  refine ⟨?_, ?_, ?_, ?_, ?_, ?_⟩
  · simp [ServiceWorker.step, onSync, Pass.start, getDatabaseQueue, hw]
  · rw [run_append_single, h2, hfinal]
  · rw [run_append_single, h2, hfinal]
  · rw [run_append_single, h2, hfinal]
    simp [Output.append]
  · rw [run_append_single, h2, hfinal]
    simp [Output.append]
  · rw [run_append_single, h2, hfinal]
    simp [Output.append]

/-- C16 at a concrete input: a pass over the two sample orders; after its first attempt an
`UPDATE_DATABASE_QUEUE` message installs a queue holding another order; the pass attempts
the two sample orders only and leaves the mirror empty. -/
theorem C16_replacement_during_pass_witness :
    (ServiceWorker.run acceptingEnv ⟨loadedWorker, [⟨.database, sampleOrders, 0, ⟨0, 0⟩⟩]⟩
      [.advance 0,
        .message ⟨"UPDATE_DATABASE_QUEUE", some [lateOrder], .undefined, []⟩]
      ).1.worker.databaseQueueData = some [lateOrder] ∧
    (ServiceWorker.run acceptingEnv ⟨loadedWorker, [⟨.database, sampleOrders, 0, ⟨0, 0⟩⟩]⟩
      ([.advance 0, .message ⟨"UPDATE_DATABASE_QUEUE", some [lateOrder], .undefined, []⟩,
        .advance 0] ++ [.advance 0])).1.worker.databaseQueueData = some [] ∧
    (ServiceWorker.run acceptingEnv ⟨loadedWorker, [⟨.database, sampleOrders, 0, ⟨0, 0⟩⟩]⟩
      ([.advance 0, .message ⟨"UPDATE_DATABASE_QUEUE", some [lateOrder], .undefined, []⟩,
        .advance 0] ++ [.advance 0])).2.attempted =
      sampleOrders.map (fun item => (QueueKind.database, item)) :=
  have h := C16_replacement_during_pass acceptingEnv loadedWorker sampleOrders
    [.advance 0, .message ⟨"UPDATE_DATABASE_QUEUE", some [lateOrder], .undefined, []⟩,
      .advance 0]
    (by simp [sampleOrders]) (by rfl) (by decide)
    (by
      intro ev hev
      simp only [List.mem_cons, List.mem_singleton, List.not_mem_nil, or_false] at hev
      rcases hev with h | h | h <;> subst h <;> rfl)
    (by rfl)
  ⟨by rfl, h.2.1, h.2.2.2.1⟩

end Refeicoes
